import Mathlib

/-!
Shallow embedding of the statement-ingestion pipeline of the Finance backend
(`backend/app/api/ai_routes.py` and the repository modules it calls), together
with proofs about the behaviour its specification claims.

Modelling conventions:
* Python JSON-ish values are modelled by the inductive `PyVal`; Python floats
  are modelled as exact fractions (`PyFloat`, numerator over a power-of-ten
  denominator), which is exact for the decimal literals and arithmetic
  appearing in this code.
* Python exceptions are modelled by `PyExn`; fallible code returns `Except`.
* Database ids are natural numbers drawn from a fresh-id counter in the store;
  timestamps (`created_at` / `updated_at`) are not modelled.
* `str.lower()` is modelled for the alphabets occurring in this code base
  (ASCII and Russian Cyrillic); `str.strip()` strips ASCII whitespace.
* String and numeric primitives are implemented over character lists and
  integer pairs so that every definition evaluates by kernel reduction.
-/

namespace Finance

/-- A Python float, modelled as the exact fraction `num / den`; every
denominator produced by this development is a positive power of ten. -/
structure PyFloat where
  num : Int
  den : Nat

/-- Embed an integer. -/
def PyFloat.ofInt (n : Int) : PyFloat := ⟨n, 1⟩

/-- Negation. -/
def PyFloat.neg (x : PyFloat) : PyFloat := ⟨-x.num, x.den⟩

/-- Absolute value, as Python `abs`. -/
def PyFloat.abs (x : PyFloat) : PyFloat := ⟨(x.num.natAbs : Int), x.den⟩

/-- Whether the value is zero (Python float truthiness is non-zeroness). -/
def PyFloat.isZero (x : PyFloat) : Bool := x.num == 0

/-- Truncation toward zero, as Python `int(float)`. -/
def PyFloat.trunc (x : PyFloat) : Int := x.num / (x.den : Int)

/-- Python-ish JSON value (`None`, `bool`, `int`, `float`, `str`, `list`, `dict`). -/
inductive PyVal where
  | none
  | bool (b : Bool)
  | int (n : Int)
  | float (q : PyFloat)
  | str (s : String)
  | list (xs : List PyVal)
  | dict (xs : List (String × PyVal))

/-- Decimal digit character. -/
def digitChar (n : Nat) : Char := Char.ofNat (48 + n)

/-- Digits of a natural number (fuel-bounded so that it evaluates by
structural recursion; 24 digits cover every number in this development). -/
def natToStrAux : Nat → Nat → List Char
  | 0, _ => []
  | fuel + 1, n =>
      if n < 10 then [digitChar n]
      else natToStrAux fuel (n / 10) ++ [digitChar (n % 10)]

/-- Decimal rendering of a natural number. -/
def natToStr (n : Nat) : String := String.mk (natToStrAux 24 n)

/-- Decimal rendering of an integer. -/
def intToStr (i : Int) : String :=
  if i < 0 then "-" ++ natToStr i.natAbs else natToStr i.natAbs

/-- `str.strip()` over the character list (ASCII whitespace). -/
def pyTrim (s : String) : String :=
  String.mk (((s.data.dropWhile Char.isWhitespace).reverse.dropWhile
    Char.isWhitespace).reverse)

/-- Python `hay.startswith(pre)`. -/
def pyStartsWith (hay pre : String) : Bool :=
  pre.data.isPrefixOf hay.data

/-- Python `hay.endswith(suffixStr)`. -/
def pyEndsWith (hay suffixStr : String) : Bool :=
  suffixStr.data.reverse.isPrefixOf hay.data.reverse

/-- Substring search over character lists. -/
def containsSub (needle : List Char) : List Char → Bool
  | [] => needle.isEmpty
  | c :: rest => needle.isPrefixOf (c :: rest) || containsSub needle rest

/-- Words of a line, as Python `line.split()` (whitespace runs, empties
dropped). -/
def pyWordsAux : List Char → List Char → List String
  | [], acc => if acc.isEmpty then [] else [String.mk acc.reverse]
  | c :: rest, acc =>
      if c.isWhitespace then
        if acc.isEmpty then pyWordsAux rest []
        else String.mk acc.reverse :: pyWordsAux rest []
      else pyWordsAux rest (c :: acc)

/-- Python `line.split()`. -/
def pyWords (s : String) : List String := pyWordsAux s.data []

/-- Split at newline characters (a trailing newline yields a trailing empty
line, which every caller filters out). -/
def splitLinesAux : List Char → List Char → List String
  | [], acc => [String.mk acc.reverse]
  | c :: rest, acc =>
      if c = '\n' then String.mk acc.reverse :: splitLinesAux rest []
      else splitLinesAux rest (c :: acc)

/-- Lines of a string, as `str.splitlines` modulo the filtered-out trailing
empty. -/
def splitLines (s : String) : List String := splitLinesAux s.data []

/-- `sep.join(xs)`. -/
def joinSep (sep : String) : List String → String
  | [] => ""
  | [x] => x
  | x :: rest => x ++ sep ++ joinSep sep rest

/-- Python exception classes relevant to the embedded code. -/
inductive PyExn where
  | valueError (msg : String)
  | typeError (msg : String)
  | attributeError (msg : String)
  | runtimeError (msg : String)
  | httpExn (code : Nat) (detail : String)

/-- Python truthiness of a value. -/
def pyTruthy : PyVal → Bool
  | .none => false
  | .bool b => b
  | .int n => n != 0
  | .float q => !q.isZero
  | .str s => s != ""
  | .list xs => !xs.isEmpty
  | .dict xs => !xs.isEmpty

/-- Python `a or b`. -/
def pyOr (a b : PyVal) : PyVal := if pyTruthy a then a else b

/-- Python `d.get(k)` (returns `None` when the key is absent; raises
`AttributeError` when the receiver is not a dict). -/
def pyGet (v : PyVal) (k : String) : Except PyExn PyVal :=
  match v with
  | .dict xs =>
      match xs.find? (fun p => p.fst == k) with
      | some p => .ok p.snd
      | Option.none => .ok .none
  | _ => .error (.attributeError "object has no attribute get")

/-- `d.get(k)` on a value already known to be a dict (total variant used where
the source constructs the dict itself). -/
def dictGet (xs : List (String × PyVal)) (k : String) : PyVal :=
  match xs.find? (fun p => p.fst == k) with
  | some p => p.snd
  | Option.none => .none

/-- Python `d[k] = v` on a dict: overwrite the first binding or append. -/
def dictSet (xs : List (String × PyVal)) (k : String) (v : PyVal) :
    List (String × PyVal) :=
  match xs with
  | [] => [(k, v)]
  | p :: rest =>
      if p.fst == k then (k, v) :: rest else p :: dictSet rest k v

/-- Keys of a dict value (empty for non-dicts; only used on dicts). -/
def pyKeys : PyVal → List String
  | .dict xs => xs.map Prod.fst
  | _ => []

/-- Python `x in (None, "")` (equality only holds against the same type here). -/
def isNoneOrEmptyStr : PyVal → Bool
  | .none => true
  | .str s => s == ""
  | _ => false

/-- Python `len(x)` (defined for `str`, `list`, `dict`; `TypeError` otherwise). -/
def pyLen : PyVal → Except PyExn Nat
  | .str s => .ok s.length
  | .list xs => .ok xs.length
  | .dict xs => .ok xs.length
  | _ => .error (.typeError "object has no len")

/-- `str.lower()` for one character: ASCII `A`-`Z` plus the Russian Cyrillic
range `А`-`Я` and `Ё`, the alphabets occurring in this code base. -/
def pyCharLower (c : Char) : Char :=
  if 'A' ≤ c ∧ c ≤ 'Z' then Char.ofNat (c.toNat + 32)
  else if c.toNat ≥ 0x410 ∧ c.toNat ≤ 0x42F then Char.ofNat (c.toNat + 0x20)
  else if c.toNat = 0x401 then Char.ofNat 0x451
  else c

/-- `str.lower()`. -/
def pyLower (s : String) : String := String.mk (s.data.map pyCharLower)

/-- Python `(x or "").lower()`: falsy values collapse to the empty string, a
truthy non-string raises `AttributeError`. -/
def pyLowerOrEmpty (v : PyVal) : Except PyExn String :=
  if pyTruthy v then
    match v with
    | .str s => .ok (pyLower s)
    | _ => .error (.attributeError "object has no attribute lower")
  else .ok ""

/-- Python `(x or "").strip()` with `str.strip()` modelled by `String.trim`. -/
def pyStripOrEmpty (v : PyVal) : Except PyExn String :=
  if pyTruthy v then
    match v with
    | .str s => .ok (pyTrim s)
    | _ => .error (.attributeError "object has no attribute strip")
  else .ok ""

/-- Python substring test `needle in hay`. -/
def pySubstr (needle hay : String) : Bool :=
  containsSub needle.data hay.data

/-- Digits prefix of a character list. -/
def takeDigits : List Char → List Char × List Char
  | [] => ([], [])
  | c :: rest =>
      if c.isDigit then
        let p := takeDigits rest
        (c :: p.fst, p.snd)
      else ([], c :: rest)

/-- Numeric value of a digit list (most significant first). -/
def digitsToNat (ds : List Char) : Nat :=
  ds.foldl (fun acc c => acc * 10 + (c.toNat - '0'.toNat)) 0

/-- Mantissa-and-exponent tail of Python `float(...)` parsing. -/
def parseExpPart (sgn : Int) (ip fp : List Char) (rest : List Char) :
    Option PyFloat :=
  let base : PyFloat :=
    ⟨sgn * ((digitsToNat ip : Int) * (10 ^ fp.length : Nat) +
      (digitsToNat fp : Int)), 10 ^ fp.length⟩
  match rest with
  | [] => some base
  | e :: r =>
      if e = 'e' ∨ e = 'E' then
        let sr : Bool × List Char :=
          match r with
          | '+' :: t => (false, t)
          | '-' :: t => (true, t)
          | t => (false, t)
        let ed := takeDigits sr.snd
        if ed.fst.isEmpty ∨ !ed.snd.isEmpty then Option.none
        else
          let ex := digitsToNat ed.fst
          if sr.fst then some ⟨base.num, base.den * 10 ^ ex⟩
          else some ⟨base.num * (10 ^ ex : Nat), base.den⟩
      else Option.none

/-- Python `float(s)` on an already-whitespace-free string, modelled over
exact decimal fractions for the decimal/exponent grammar (infinities, NaN
and underscore separators are not modelled). -/
def parsePyFloat (s : String) : Option PyFloat :=
  let sc : Int × List Char :=
    match s.data with
    | '+' :: r => (1, r)
    | '-' :: r => (-1, r)
    | cs => (1, cs)
  let ip := takeDigits sc.snd
  match ip.snd with
  | '.' :: r2 =>
      let fp := takeDigits r2
      if ip.fst.isEmpty ∧ fp.fst.isEmpty then Option.none
      else parseExpPart sc.fst ip.fst fp.fst fp.snd
  | _ =>
      if ip.fst.isEmpty then Option.none
      else parseExpPart sc.fst ip.fst [] ip.snd

/-- Python `int(s)` on a string: optional surrounding whitespace, optional
sign, then a non-empty digit run (underscore separators are not modelled). -/
def pyIntOfStr (s : String) : Except PyExn Int :=
  let sc : Int × List Char :=
    match (pyTrim s).data with
    | '+' :: r => (1, r)
    | '-' :: r => (-1, r)
    | cs => (1, cs)
  let p := takeDigits sc.snd
  if p.fst.isEmpty ∨ !p.snd.isEmpty then
    .error (.valueError "invalid literal for int")
  else .ok (sc.fst * (digitsToNat p.fst : Int))

/-- Python `int(x)`: `bool` converts, `int` is itself, `float` truncates
toward zero, `str` is parsed, anything else raises `TypeError`. -/
def pyInt : PyVal → Except PyExn Int
  | .bool b => .ok (if b then 1 else 0)
  | .int n => .ok n
  | .float q => .ok q.trunc
  | .str s => pyIntOfStr s
  | _ => .error (.typeError "int argument must be a number or a string")

/-- Days in a month of the proleptic Gregorian calendar. -/
def daysInMonth (y m : Nat) : Nat :=
  if m = 2 then
    if y % 4 = 0 ∧ (y % 100 ≠ 0 ∨ y % 400 = 0) then 29 else 28
  else if m = 4 ∨ m = 6 ∨ m = 9 ∨ m = 11 then 30
  else 31

/-- `datetime.date.fromisoformat` on the strict `YYYY-MM-DD` shape, encoding a
valid date as the natural number `y*10000 + m*100 + d`. -/
def isoDate (s : String) : Option Nat :=
  match s.data with
  | [y1, y2, y3, y4, '-', m1, m2, '-', d1, d2] =>
      if (y1.isDigit ∧ y2.isDigit ∧ y3.isDigit ∧ y4.isDigit) ∧
         (m1.isDigit ∧ m2.isDigit) ∧ (d1.isDigit ∧ d2.isDigit) then
        let y := digitsToNat [y1, y2, y3, y4]
        let m := digitsToNat [m1, m2]
        let d := digitsToNat [d1, d2]
        if 1 ≤ y ∧ 1 ≤ m ∧ m ≤ 12 ∧ 1 ≤ d ∧ d ≤ daysInMonth y m then
          some (y * 10000 + m * 100 + d)
        else Option.none
      else Option.none
  | _ => Option.none

/-- Round-half-to-even of `x * 100` to an integer, via the floor of
`num * 100 / den` and the doubled remainder (this is Python
`round(x * 100)`). -/
def roundHalfEven100 (x : PyFloat) : Int :=
  let n100 : Int := x.num * 100
  let d : Int := (x.den : Int)
  let f : Int := Int.fdiv n100 d
  let twice : Int := 2 * (n100 - f * d)
  if twice < d then f
  else if twice > d then f + 1
  else if f % 2 = 0 then f else f + 1

/-- Python `round(x, 2)` over the fraction model of floats. -/
def pyRound2 (x : PyFloat) : PyFloat := ⟨roundHalfEven100 x, 100⟩

/-! ## Statement Decoder (`ai_routes.py`) -/

/-- `_ensure_supported_statement` (`ai_routes.py:39`): returns `some` HTTP 415
detail when the upload is rejected, `none` when it is accepted.  The file
object is represented by its content type and filename, each `or ""`-defaulted
as in the source. -/
def ensureSupportedStatement (contentTypeRaw filenameRaw : String) :
    Option (Nat × String) :=
  let content_type := pyLower contentTypeRaw
  let filename := pyLower filenameRaw
  let is_csv := pySubstr "csv" content_type || pyEndsWith filename ".csv"
  let is_text := pyStartsWith content_type "text/"
  let is_pdf := pySubstr "pdf" content_type || pyEndsWith filename ".pdf"
  if !(is_csv || is_text || is_pdf) then
    some (415, "Поддерживаются только PDF, CSV или TXT выписки. " ++
      "Сохраните файл в поддерживаемом формате и попробуйте снова.")
  else Option.none

/-- `_clean_pdf_text` (`ai_routes.py:53`): collapse runs of whitespace on each
line and drop blank lines. -/
def cleanPdfText (raw : String) : String :=
  let lines := (splitLines raw).foldr
    (fun line acc =>
      let cleaned := pyTrim (joinSep " " (pyWords line))
      if cleaned ≠ "" then cleaned :: acc else acc) []
  joinSep "\n" lines

/-- One page of a PDF as surfaced by the `pdfplumber` collaborator:
extracted page text plus extracted tables (cells may be `None`). -/
structure PdfPage where
  text : String
  tables : List (List (List (Option String)))

/-- The `pages_text` list collected by `_extract_pdf_text`
(`ai_routes.py:64`-`77`): page text when non-empty, then each non-empty
table rendered as newline-joined `" | "`-rows. -/
def pdfPagesText (pages : List PdfPage) : List String :=
  pages.foldr
    (fun page acc =>
      let withText := if page.text ≠ "" then [page.text] else []
      let tablesText := page.tables.foldr
        (fun table acc2 =>
          let rows := table.map
            (fun row => joinSep " | " (row.map
              (fun cell => pyTrim (cell.getD ""))))
          if !rows.isEmpty then (joinSep "\n" rows) :: acc2 else acc2) []
      withText ++ tablesText ++ acc) []

/-- `_extract_pdf_text` (`ai_routes.py:62`), with the `pdfplumber` library
modelled as the list of pages it yields: clean the collected text and return
`None` exactly when it is empty (`cleaned or None`). -/
def extractPdfText (pages : List PdfPage) : Option String :=
  let cleaned := cleanPdfText (joinSep "\n" (pdfPagesText pages))
  if cleaned == "" then Option.none else some cleaned

/-- The HTTP 422 detail of the unextractable-PDF failure
(`ai_routes.py:200`). -/
def pdfUnextractableDetail : String :=
  "⚠️ Не удалось корректно извлечь данные из PDF. " ++
    "Проверь, что файл — текстовый, а не скан."

/-- PDF branch of `_decode_statement` (`ai_routes.py:192`): raise HTTP 422
when `_extract_pdf_text` produced nothing, otherwise return the text. -/
def decodeStatementPdf (pages : List PdfPage) : Except PyExn String :=
  match extractPdfText pages with
  | Option.none => .error (.httpExn 422 pdfUnextractableDetail)
  | some extracted => .ok extracted

/-- `_coerce_number` (`ai_routes.py:82`): replace non-breaking spaces, strip,
drop thousands spaces, comma decimal point, then `float(...)` or `None`. -/
def coerceNumber (value : Option String) : Option PyFloat :=
  match value with
  | Option.none => Option.none
  | some v =>
      let cleaned := pyTrim (String.mk (v.data.map
        (fun c => if c = ' ' then ' ' else c)))
      if cleaned = "" then Option.none
      else
        let normalized := String.mk ((cleaned.data.filter
          (fun c => c ≠ ' ')).map (fun c => if c = ',' then '.' else c))
        parsePyFloat normalized

/-- Header-synonym key sets of `_normalize_csv_rows` (`ai_routes.py:129`),
kept in source order; Python iterates them as sets, whose order is
unspecified, so theorems never depend on the relative order inside a set. -/
def dateKeys : List String := ["date", "дата", "operation date", "transaction date"]

/-- Amount header synonyms (`ai_routes.py:130`). -/
def amountKeys : List String := ["amount", "сумма", "sum", "amount_rub"]

/-- Balance header synonyms (`ai_routes.py:131`). -/
def balanceKeys : List String := ["balance", "остаток", "баланс", "saldo"]

/-- Description header synonyms (`ai_routes.py:132`). -/
def descriptionKeys : List String :=
  ["description", "описание", "назначение", "details", "comment", "memo"]

/-- Debit header synonyms (`ai_routes.py:140`). -/
def debitKeys : List String := ["debit", "дебет", "расход"]

/-- Credit header synonyms (`ai_routes.py:141`). -/
def creditKeys : List String := ["credit", "кредит", "приход"]

/-- The `lowered` dict of `_normalize_csv_rows`: a dict comprehension keyed by
lowercased header, so a later duplicate key overwrites an earlier one. -/
def lowerRow (row : List (String × String)) : List (String × String) :=
  row.foldl
    (fun acc p =>
      let k := pyLower p.fst
      if acc.any (fun q => q.fst == k) then
        acc.map (fun q => if q.fst == k then (k, p.snd) else q)
      else acc ++ [(k, p.snd)]) []

/-- `next((lowered[key] for key in keys if key in lowered), None)`. -/
def findRowValue (keys : List String) (lowered : List (String × String)) :
    Option String :=
  keys.findSome? (fun k => (lowered.find? (fun p => p.fst == k)).map Prod.snd)

/-- Output row of `_normalize_csv_rows` (the `raw` echo of the source row is
omitted; it is the unmodified input). -/
structure CsvNorm where
  date : Option String
  amount : Option PyFloat
  description : Option String
  balance : Option PyFloat

/-- Body of the `_normalize_csv_rows` loop (`ai_routes.py:143`) for one row:
header-synonym extraction, then debit/credit sign normalization when no
unified amount value parses. -/
def normalizeCsvRow (row : List (String × String)) : CsvNorm :=
  let lowered := lowerRow row
  let date_value := findRowValue dateKeys lowered
  let amount_value := findRowValue amountKeys lowered
  let description_value := findRowValue descriptionKeys lowered
  let balance_value := findRowValue balanceKeys lowered
  let debit_value := findRowValue debitKeys lowered
  let credit_value := findRowValue creditKeys lowered
  let amount_number :=
    match coerceNumber amount_value with
    | some a => some a
    | Option.none =>
        match coerceNumber debit_value with
        | some d => some (PyFloat.neg (PyFloat.abs d))
        | Option.none =>
            match coerceNumber credit_value with
            | some c => some (PyFloat.abs c)
            | Option.none => Option.none
  { date := date_value
    amount := amount_number
    description := description_value
    balance := coerceNumber balance_value }

/-- `_normalize_csv_rows` over a whole row list. -/
def normalizeCsvRows (rows : List (List (String × String))) : List CsvNorm :=
  rows.map normalizeCsvRow

/-! ## Contract validation and operation-type mapping (`ai_routes.py`) -/

/-- Generic assoc-list write with Python-dict overwrite semantics. -/
def assocSet {α : Type} (xs : List (String × α)) (k : String) (v : α) :
    List (String × α) :=
  match xs with
  | [] => [(k, v)]
  | p :: rest =>
      if p.fst == k then (k, v) :: rest else p :: assocSet rest k v

/-- Generic assoc-list lookup (first binding wins; bindings built through
`assocSet` are unique). -/
def assocGet {α : Type} (xs : List (String × α)) (k : String) : Option α :=
  (xs.find? (fun p => p.fst == k)).map Prod.snd

/-- `str.lower()` of a Python value (`AttributeError` on non-strings). -/
def pyLowerVal : PyVal → Except PyExn String
  | .str s => .ok (pyLower s)
  | _ => .error (.attributeError "object has no attribute lower")

/-- `(item.get(k) or "").strip()`. -/
def pyStripField (item : PyVal) (k : String) : Except PyExn String := do
  pyStripOrEmpty (← pyGet item k)

/-- `_map_operation_type` (`ai_routes.py:517`): `commission` maps to `fee`,
the three canonical names map to themselves, anything else passes through
lowercased; falsy input maps to `None`. -/
def mapOperationType (opType : Option String) : Option String :=
  match opType with
  | Option.none => Option.none
  | some s =>
      if s = "" then Option.none
      else
        let normalized := pyLower s
        if normalized = "commission" then some "fee"
        else if normalized = "income" ∨ normalized = "expense" ∨
            normalized = "transfer" then some normalized
        else some normalized

/-- The `required_keys` set of `_validate_draft_payload` (`ai_routes.py:532`),
listed in the lexicographic order `sorted` produces for the missing-keys
message. -/
def requiredKeysSorted : List String :=
  ["accounts_to_create", "categories_to_create", "counterparties",
   "operations", "summary", "warnings"]

/-- Raw LLM-facing operation types accepted by contract validation
(`ai_routes.py:557`). -/
def allowedRawTypes : List String :=
  ["income", "expense", "transfer", "commission"]

/-- The four per-operation required fields (`ai_routes.py:553`). -/
def opFieldKeys : List String := ["date", "amount", "type", "account"]

/-- Per-operation errors of the `_validate_draft_payload` loop
(`ai_routes.py:549`); a truthy non-string `type` raises `AttributeError`
(`.lower()` on a non-string), modelled by the `Except` error. -/
def opValidationErrors (index : Nat) (item : PyVal) : Except PyExn (List String) :=
  match item with
  | .dict xs =>
      let fieldErrs := (opFieldKeys.filter
          (fun k => isNoneOrEmptyStr (dictGet xs k))).map
        (fun k => "operations[" ++ natToStr index ++ "] missing " ++ k)
      do
        let opType ← pyLowerOrEmpty (dictGet xs "type")
        let typeErrs :=
          if opType ≠ "" ∧ ¬ allowedRawTypes.contains opType then
            ["operations[" ++ natToStr index ++ "] invalid type"]
          else []
        .ok (fieldErrs ++ typeErrs)
  | _ => .ok ["operations[" ++ natToStr index ++ "] must be an object"]

/-- The operations loop of `_validate_draft_payload`, accumulating errors in
source order. -/
def opsValidationLoop (items : List PyVal) (index : Nat) :
    Except PyExn (List String) :=
  match items with
  | [] => .ok []
  | item :: rest => do
      let e ← opValidationErrors index item
      let es ← opsValidationLoop rest (index + 1)
      .ok (e ++ es)

/-- Whether a value is a Python dict. -/
def isDict : PyVal → Bool
  | .dict _ => true
  | _ => false

/-- Whether a value is a Python list. -/
def isList : PyVal → Bool
  | .list _ => true
  | _ => false

/-- `_validate_draft_payload` (`ai_routes.py:528`): the full error list, in
append order — missing keys, operations checks, then the shape checks of the
five non-operations keys. -/
def validateDraftPayload (payload : PyVal) : Except PyExn (List String) :=
  match payload with
  | .dict xs => do
      let missing := requiredKeysSorted.filter
        (fun k => !(xs.map Prod.fst).contains k)
      let missingErrs :=
        if !missing.isEmpty then
          ["Missing keys: " ++ joinSep ", " missing]
        else []
      let operations := dictGet xs "operations"
      let opsErrs ←
        match operations with
        | .list ops =>
            if ops.isEmpty then pure ["operations cannot be empty"]
            else opsValidationLoop ops 0
        | _ => pure ["operations must be a list"]
      let summaryErrs :=
        if !isDict (dictGet xs "summary") then ["summary must be an object"]
        else []
      let a2cErrs :=
        if !isList (dictGet xs "accounts_to_create") then
          ["accounts_to_create must be a list"]
        else []
      let c2cErrs :=
        if !isList (dictGet xs "categories_to_create") then
          ["categories_to_create must be a list"]
        else []
      let cpErrs :=
        if !isList (dictGet xs "counterparties") then
          ["counterparties must be a list"]
        else []
      let wErrs :=
        if !isList (dictGet xs "warnings") then ["warnings must be a list"]
        else []
      .ok (missingErrs ++ opsErrs ++ summaryErrs ++ a2cErrs ++ c2cErrs ++
        cpErrs ++ wErrs)
  | _ => .ok ["Payload must be an object"]

/-! ## Entity Resolver (`_normalize_operations`, `ai_routes.py:577`) -/

/-- An `accounts` row as read by this core (`repositories/accounts.py`);
`created_at` ordering is the list order, timestamps are not modelled. -/
structure AccountRow where
  id : Nat
  budgetId : Nat
  name : String
  kind : String
  activeFrom : Nat

/-- A `categories` row (`repositories/categories.py`); `ctype` models the
database `type` column consulted by `transactions.py`. -/
structure CategoryRow where
  id : Nat
  budgetId : Nat
  name : String
  parentId : Option Nat
  ctype : Option String

/-- `_account_name_map` (`ai_routes.py:207`): dict comprehension keyed by
lowercased name, later rows overwriting earlier ones. -/
def accountNameMap (accounts : List AccountRow) : List (String × Nat) :=
  accounts.foldl (fun acc a => assocSet acc (pyLower a.name) a.id) []

/-- `_category_name_map` (`ai_routes.py:211`). -/
def categoryNameMap (categories : List CategoryRow) : List (String × Nat) :=
  categories.foldl (fun acc c => assocSet acc (pyLower c.name) c.id) []

/-- Embed an optional id as the Python value stored in a normalized op. -/
def optNat : Option Nat → PyVal
  | Option.none => .none
  | some n => .int n

/-- Embed an optional string as a Python value. -/
def optStr : Option String → PyVal
  | Option.none => .none
  | some s => .str s

/-- The `accounts_to_create` loop of `_normalize_operations`
(`ai_routes.py:588`): collect unseen names into the missing-accounts dict
(kept here as an assoc list keyed by lowercased name). -/
def accountsToCreateLoop (items : List PyVal)
    (accountMap : List (String × Nat))
    (missing : List (String × PyVal)) : Except PyExn (List (String × PyVal)) :=
  match items with
  | [] => .ok missing
  | item :: rest => do
      let name ← pyStripField item "name"
      if name = "" then accountsToCreateLoop rest accountMap missing
      else
        let account_key := pyLower name
        if (assocGet accountMap account_key).isSome ∨
            (assocGet missing account_key).isSome then
          accountsToCreateLoop rest accountMap missing
        else do
          let kindRaw ← pyLowerVal (pyOr (← pyGet item "type") (.str "bank"))
          let kind := if kindRaw = "cash" ∨ kindRaw = "bank" then kindRaw
            else "bank"
          accountsToCreateLoop rest accountMap
            (missing ++ [(account_key,
              .dict [("name", .str name), ("kind", .str kind)])])

/-- The `categories_to_create` loop of `_normalize_operations`
(`ai_routes.py:602`). -/
def categoriesToCreateLoop (items : List PyVal)
    (categoryMap : List (String × Nat))
    (missing : List (String × PyVal)) : Except PyExn (List (String × PyVal)) :=
  match items with
  | [] => .ok missing
  | item :: rest => do
      let name ← pyStripField item "name"
      if name = "" then categoriesToCreateLoop rest categoryMap missing
      else
        let category_key := pyLower name
        if (assocGet categoryMap category_key).isSome ∨
            (assocGet missing category_key).isSome then
          categoriesToCreateLoop rest categoryMap missing
        else
          categoriesToCreateLoop rest categoryMap
            (missing ++ [(category_key,
              .dict [("name", .str name), ("type", .str "expense")])])

/-- The missing-accounts update of one operations-loop iteration
(`ai_routes.py:621`): record the unresolved account name once, keyed by
lowercased name, with the raw (unstripped) name and kind `bank`. -/
def missingAccountsStep (item : PyVal) (account_name account_key : String)
    (account_id : Option Nat) (missing : List (String × PyVal)) :
    Except PyExn (List (String × PyVal)) :=
  if account_name ≠ "" ∧ account_id = Option.none ∧
      (assocGet missing account_key).isNone then do
    let rawName ← pyGet item "account"
    pure (missing ++ [(account_key,
      .dict [("name", rawName), ("kind", .str "bank")])])
  else pure missing

/-- The missing-categories update of one operations-loop iteration
(`ai_routes.py:626`). -/
def missingCategoriesStep (item : PyVal) (category_name category_key : String)
    (category_id : Option Nat) (missing : List (String × PyVal)) :
    Except PyExn (List (String × PyVal)) :=
  if category_name ≠ "" ∧ category_id = Option.none ∧
      (assocGet missing category_key).isNone then do
    let rawName ← pyGet item "category"
    pure (missing ++ [(category_key,
      .dict [("name", rawName), ("type", .str "expense")])])
  else pure missing

/-- The transfer-counterparty resolution of one operations-loop iteration
(`ai_routes.py:633`): only transfers look up the counterparty account. -/
def transferPairStep (item : PyVal) (accountMap : List (String × Nat))
    (mapped_type : Option String) :
    Except PyExn (Option String × Option Nat) :=
  if mapped_type = some "transfer" then do
    let counterparty ← pyStripField item "counterparty"
    if counterparty ≠ "" then
      let counterparty_key := pyLower counterparty
      match assocGet accountMap counterparty_key with
      | some cid => pure (some counterparty, some cid)
      | Option.none =>
          pure ((Option.none : Option String), (Option.none : Option Nat))
    else pure ((Option.none : Option String), (Option.none : Option Nat))
  else pure ((Option.none : Option String), (Option.none : Option Nat))

/-- Result of the operations loop of `_normalize_operations`. -/
structure OpsLoopResult where
  normalized : List PyVal
  missingAccounts : List (String × PyVal)
  missingCategories : List (String × PyVal)

/-- The operations loop of `_normalize_operations` (`ai_routes.py:613`):
resolve names against the case-insensitive maps, grow the missing-entity
dicts, and build each normalized operation dict. -/
def operationsLoop (items : List PyVal)
    (accountMap categoryMap : List (String × Nat))
    (acc : OpsLoopResult) : Except PyExn OpsLoopResult :=
  match items with
  | [] => .ok acc
  | item :: rest => do
      let account_name ← pyStripField item "account"
      let account_key := pyLower account_name
      let category_name ← pyStripField item "category"
      let category_key := pyLower category_name
      let account_id :=
        if account_name ≠ "" then assocGet accountMap account_key
        else Option.none
      let category_id :=
        if category_name ≠ "" then assocGet categoryMap category_key
        else Option.none
      let missingA ← missingAccountsStep item account_name account_key
        account_id acc.missingAccounts
      let missingC ← missingCategoriesStep item category_name category_key
        category_id acc.missingCategories
      let op_type ← pyLowerOrEmpty (← pyGet item "type")
      let mapped_type := mapOperationType (some op_type)
      let toPair ← transferPairStep item accountMap mapped_type
      let normalizedItem : PyVal := .dict
        [("date", ← pyGet item "date"),
         ("type", optStr mapped_type),
         ("kind", .str "normal"),
         ("amount", ← pyGet item "amount"),
         ("account_id", optNat account_id),
         ("to_account_id", optNat toPair.snd),
         ("category_id", optNat category_id),
         ("tag", .str "one_time"),
         ("note", ← pyGet item "description"),
         ("debt", .none),
         ("balance_after", ← pyGet item "balance_after"),
         ("counterparty", ← pyGet item "counterparty"),
         ("account_name", ← pyGet item "account"),
         ("to_account_name", optStr toPair.fst),
         ("category_name", ← pyGet item "category")]
      operationsLoop rest accountMap categoryMap
        { normalized := acc.normalized ++ [normalizedItem]
          missingAccounts := missingA
          missingCategories := missingC }

/-- Result of `_normalize_operations`; the missing-entity dicts are kept as
assoc lists keyed by lowercased name, and the source's returned value lists
are their `Prod.snd` projections. -/
structure NormOpsResult where
  normalized : List PyVal
  warnings : List String
  missingAccountsA : List (String × PyVal)
  missingCategoriesA : List (String × PyVal)

/-- Python iteration: lists yield elements, strings yield one-character
strings, dicts yield their keys, everything else raises `TypeError`. -/
def pyIterate : PyVal → Except PyExn (List PyVal)
  | .list xs => .ok xs
  | .str s => .ok (s.data.map (fun c => .str (String.mk [c])))
  | .dict xs => .ok (xs.map (fun p => .str p.fst))
  | _ => .error (.typeError "object is not iterable")

/-- Iterate `x or []` as the resolver/apply loops do. -/
def pyIterOrEmpty (v : PyVal) : Except PyExn (List PyVal) :=
  pyIterate (pyOr v (.list []))

/-- `_normalize_operations` (`ai_routes.py:577`): build case-insensitive
name maps, fold the two `*_to_create` lists, then the operations loop. -/
def normalizeOperations (draftPayload : PyVal) (accounts : List AccountRow)
    (categories : List CategoryRow) : Except PyExn NormOpsResult := do
  let accountMap := accountNameMap accounts
  let categoryMap := categoryNameMap categories
  let a2cItems ← pyIterOrEmpty (← pyGet draftPayload "accounts_to_create")
  let missingA ← accountsToCreateLoop a2cItems accountMap []
  let c2cItems ← pyIterOrEmpty (← pyGet draftPayload "categories_to_create")
  let missingC ← categoriesToCreateLoop c2cItems categoryMap []
  let opsItems ← pyIterOrEmpty (← pyGet draftPayload "operations")
  let res ← operationsLoop opsItems accountMap categoryMap
    { normalized := [], missingAccounts := missingA,
      missingCategories := missingC }
  .ok { normalized := res.normalized
        warnings := []
        missingAccountsA := res.missingAccounts
        missingCategoriesA := res.missingCategories }

/-- The `missing_accounts` list returned to callers
(`list(missing_accounts.values())`, `ai_routes.py:665`). -/
def missingAccountsOut (r : NormOpsResult) : List PyVal :=
  r.missingAccountsA.map Prod.snd

/-- The `missing_categories` list returned to callers. -/
def missingCategoriesOut (r : NormOpsResult) : List PyVal :=
  r.missingCategoriesA.map Prod.snd

/-! ## The persistent store and its repository operations -/

/-- A `transactions` row: the serialized insert payload plus the id and
`user_id` the database adds (`repositories/transactions.py`). -/
structure TxRow where
  id : Nat
  userId : String
  fields : List (String × PyVal)

/-- An `account_balance_events` row.  `create_balance_event`
(`account_balance_events.py:221`) never populates `transaction_id`, so rows
created by this core always carry `txId = none`; the column itself exists
(the apply rollback deletes by it). -/
structure EventRow where
  id : Nat
  budgetId : Nat
  userId : String
  date : Nat
  accountId : PyVal
  delta : Int
  reason : String
  txId : Option Nat

/-- A `daily_state` row (`repositories/daily_state.py`), unique per
`(budget_id, date)` (the upsert conflict key). -/
structure DailyRow where
  budgetId : Nat
  userId : String
  date : Nat
  cashTotal : Int
  bankTotal : Int
  debtCardsTotal : Int
  debtOtherTotal : Int

/-- A `statement_drafts` row (`repositories/statement_drafts.py`);
timestamps are not modelled. -/
structure DraftRow where
  id : Nat
  userId : String
  budgetId : Nat
  status : String
  sourceFilename : PyVal
  sourceMime : PyVal
  sourceText : String
  model : String
  payload : PyVal
  feedback : PyVal

/-- The mutable locals of `apply_statement_draft` (`ai_routes.py:971`)
threaded through the state so the exception handler and
`_rollback_statement_apply` can read them, mirroring Python function locals. -/
structure ApplyLocals where
  createdTransactionIds : List Nat := []
  createdAdjustmentEventIds : List Nat := []
  createdAccountIds : List Nat := []
  createdCategoryIds : List Nat := []
  createdTransactions : List PyVal := []
  previousDebts : Option (Int × Int) := Option.none

/-- The shared persistent store (the Supabase tables this core touches),
plus a fresh-id counter and the apply-call locals.  `catTypeDefault` models
the database default of the `categories.type` column, whose schema is not in
the repository (`create_category` inserts no `type`, yet
`transactions.py` reads it). -/
structure Store where
  budgets : List (Nat × String)
  accounts : List AccountRow
  categories : List CategoryRow
  transactions : List TxRow
  events : List EventRow
  daily : List DailyRow
  drafts : List DraftRow
  rules : List PyVal
  nextId : Nat
  catTypeDefault : Option String
  locals : ApplyLocals

/-- Result of running an embedded stateful computation: success or a raised
Python exception, in both cases with the store as left at that point. -/
inductive PyResult (α : Type) where
  | ok (a : α) (s : Store)
  | err (e : PyExn) (s : Store)

/-- State-and-exception monad over the store. -/
def PyM (α : Type) : Type := Store → PyResult α

instance : Monad PyM where
  pure a := fun s => .ok a s
  bind m f := fun s =>
    match m s with
    | .ok a s1 => f a s1
    | .err e s1 => .err e s1

/-- Raise an exception. -/
def pyThrow {α : Type} (e : PyExn) : PyM α := fun s => .err e s

/-- Read the store. -/
def getStore : PyM Store := fun s => .ok s s

/-- Replace the store. -/
def setStore (s : Store) : PyM Unit := fun _ => .ok () s

/-- Update the store. -/
def modifyStore (f : Store → Store) : PyM Unit := fun s => .ok () (f s)

/-- Draw a fresh row id. -/
def freshId : PyM Nat := fun s =>
  .ok s.nextId { s with nextId := s.nextId + 1 }

/-- Lift a pure fallible computation. -/
def liftEx {α : Type} : Except PyExn α → PyM α
  | .ok a => pure a
  | .error e => pyThrow e

/-- `_ensure_budget_access` (shared by every repository module): HTTP 403
when the budget does not belong to the user. -/
def ensureBudgetAccess (userId : String) (budgetId : Nat) : PyM Unit := do
  let s ← getStore
  if s.budgets.contains (budgetId, userId) then pure ()
  else pyThrow (.httpExn 403 "Budget not found for user")

/-- `list_accounts` (`repositories/accounts.py:27`): rows of the budget,
filtered by `active_from <= as_of` when an as-of date is given, in
`created_at` (insertion) order. -/
def listAccounts (userId : String) (budgetId : Nat) (asOf : Option Nat) :
    PyM (List AccountRow) := do
  ensureBudgetAccess userId budgetId
  let s ← getStore
  match asOf with
  | Option.none => pure (s.accounts.filter (fun a => a.budgetId = budgetId))
  | some d => pure (s.accounts.filter
      (fun a => a.budgetId = budgetId ∧ a.activeFrom ≤ d))

/-- `list_categories` (`repositories/categories.py:26`). -/
def listCategories (userId : String) (budgetId : Nat) :
    PyM (List CategoryRow) := do
  ensureBudgetAccess userId budgetId
  let s ← getStore
  pure (s.categories.filter (fun c => c.budgetId = budgetId))

/-- `create_category` (`repositories/categories.py:39`): insert with a fresh
id (the store is reliable here, so the duplicate-name fallback query of the
source is dead in the model); the database fills `type` from its column
default. -/
def createCategory (userId : String) (budgetId : Nat) (name : String) :
    PyM CategoryRow := do
  ensureBudgetAccess userId budgetId
  let id ← freshId
  let s ← getStore
  let row : CategoryRow :=
    { id := id, budgetId := budgetId, name := name,
      parentId := Option.none, ctype := s.catTypeDefault }
  setStore { s with categories := s.categories ++ [row] }
  pure row

/-- `create_balance_event` (`account_balance_events.py:221`): its exact
parameter list — it has no `transaction_id` parameter. -/
def createBalanceEventParams : List String :=
  ["user_id", "budget_id", "target_date", "account_id", "delta", "reason"]

/-- `create_balance_event` body: insert one event row (no
`transaction_id` is ever written, matching the source's insert payload). -/
def createBalanceEvent (userId : String) (budgetId : Nat) (targetDate : Nat)
    (accountId : PyVal) (delta : Int) (reason : String) : PyM EventRow := do
  let id ← freshId
  let s ← getStore
  let row : EventRow :=
    { id := id, budgetId := budgetId, userId := userId, date := targetDate,
      accountId := accountId, delta := delta, reason := reason,
      txId := Option.none }
  setStore { s with events := s.events ++ [row] }
  pure row

/-- The call shape `create_balance_event(..., transaction_id=...)` used by
`create_transaction` (`transactions.py:359`, `:399`, `:408`, `:451`): Python
raises `TypeError` for a keyword argument absent from the callee's parameter
list, before the callee body runs. -/
def callCreateBalanceEventWithTransactionId (userId : String) (budgetId : Nat)
    (targetDate : Nat) (accountId : PyVal) (delta : Int) (reason : String)
    (_transactionId : PyVal) : PyM EventRow :=
  if createBalanceEventParams.contains "transaction_id" then
    createBalanceEvent userId budgetId targetDate accountId delta reason
  else
    pyThrow (.typeError
      "create_balance_event() got an unexpected keyword argument transaction_id")

/-- `_parse_payload_date` (`transactions.py:205`): strings must parse as ISO
dates (an invalid string raises an uncaught `ValueError` from
`date.fromisoformat`); non-string, non-date values raise HTTP 400. -/
def parsePayloadDate (v : PyVal) : Except PyExn Nat :=
  match v with
  | .str s =>
      match isoDate s with
      | some d => .ok d
      | Option.none => .error (.valueError "Invalid isoformat string")
  | _ => .error (.httpExn 400 "Invalid date for transaction")

/-- Python `d.get(k, default)`. -/
def pyGetD (v : PyVal) (k : String) (default : PyVal) : Except PyExn PyVal :=
  match v with
  | .dict xs =>
      match xs.find? (fun p => p.fst == k) with
      | some p => .ok p.snd
      | Option.none => .ok default
  | _ => .error (.attributeError "object has no attribute get")

/-- Python `v == s` for a string literal on the right. -/
def pyEqStr (v : PyVal) (s : String) : Bool :=
  match v with
  | .str t => t == s
  | _ => false

/-- Python `v in (s1, s2, ...)` over string literals. -/
def pyValInStrs (v : PyVal) (ss : List String) : Bool :=
  match v with
  | .str t => ss.contains t
  | _ => false

/-- Python `v in ids` over a set of row ids. -/
def pyValInNats (v : PyVal) (ns : List Nat) : Bool :=
  match v with
  | .int n => ns.any (fun i => (i : Int) == n)
  | _ => false

/-- Python `a == b` for the id-like primitive values compared by the
embedded code. -/
def pyEqPrim (a b : PyVal) : Bool :=
  match a, b with
  | .int n, .int m => n == m
  | .str s, .str t => s == t
  | .none, .none => true
  | .bool x, .bool y => x == y
  | _, _ => false

/-- `_ensure_account_in_budget` (`transactions.py:37`). -/
def ensureAccountInBudget (budgetId : Nat) (accountId : PyVal)
    (label : String) : PyM Unit := do
  let s ← getStore
  if s.accounts.any
      (fun a => pyEqPrim (.int a.id) accountId ∧ a.budgetId = budgetId) then
    pure ()
  else pyThrow (.httpExn 403 (label ++ " not found for budget"))

/-- `_ensure_category_matches_transaction` (`transactions.py:67`): the
category must exist, belong to the budget, and its `type` column must equal
the expected type (`expense` for `fee`). -/
def ensureCategoryMatchesTransaction (budgetId : Nat) (categoryId : PyVal)
    (txType : String) : PyM Unit := do
  if !pyTruthy categoryId then
    pyThrow (.httpExn 400 "Category is required")
  else do
    let s ← getStore
    match s.categories.find? (fun c => pyEqPrim (.int c.id) categoryId) with
    | Option.none => pyThrow (.httpExn 404 "Category not found")
    | some category =>
        if category.budgetId ≠ budgetId then
          pyThrow (.httpExn 403 "Category not found for budget")
        else
          let expected := if txType = "fee" then "expense" else txType
          if category.ctype ≠ some expected then
            pyThrow (.httpExn 400 "Category type must match transaction type")
          else pure ()

mutual

/-- `json.dumps(..., ensure_ascii=False)` (string escaping and float
formatting are not inspected by any theorem and are modelled plainly). -/
def pyJsonDumps : PyVal → String
  | .none => "null"
  | .bool b => if b then "true" else "false"
  | .int n => intToStr n
  | .float q => intToStr q.num ++ "/" ++ natToStr q.den
  | .str s => "\"" ++ s ++ "\""
  | .list xs => "[" ++ pyJsonDumpsList xs ++ "]"
  | .dict xs => "\x7b" ++ pyJsonDumpsDict xs ++ "\x7d"

/-- Elementwise serialization of a JSON array. -/
def pyJsonDumpsList : List PyVal → String
  | [] => ""
  | [x] => pyJsonDumps x
  | x :: rest => pyJsonDumps x ++ ", " ++ pyJsonDumpsList rest

/-- Elementwise serialization of a JSON object. -/
def pyJsonDumpsDict : List (String × PyVal) → String
  | [] => ""
  | [(k, v)] => "\"" ++ k ++ "\": " ++ pyJsonDumps v
  | (k, v) :: rest =>
      "\"" ++ k ++ "\": " ++ pyJsonDumps v ++ ", " ++ pyJsonDumpsDict rest

end

/-- Python `str(x)` as used in f-string error messages (containers
approximated by their JSON form; never inspected by a theorem). -/
def pyStrOf : PyVal → String
  | .none => "None"
  | .bool b => if b then "True" else "False"
  | .int n => intToStr n
  | .float q => intToStr q.num ++ "/" ++ natToStr q.den
  | .str s => s
  | v => pyJsonDumps v

/-- Zero-padded decimal rendering. -/
def padNum (width n : Nat) : String :=
  let s := natToStr n
  String.mk (List.replicate (width - s.length) '0') ++ s

/-- ISO `YYYY-MM-DD` rendering of an encoded date. -/
def isoOfDateNum (n : Nat) : String :=
  padNum 4 (n / 10000) ++ "-" ++ padNum 2 (n / 100 % 100) ++ "-" ++
    padNum 2 (n % 100)

/-- Run a computation with the `except HTTPException` compensation pattern of
`create_transaction`: on `HTTPException` run the best-effort compensation
(itself wrapped in `except Exception: pass`) and re-raise; any other
exception propagates untouched. -/
def catchHttpWith {α : Type} (m : PyM α) (compensation : PyM Unit) :
    PyM α := fun s =>
  match m s with
  | .ok a s1 => .ok a s1
  | .err e s1 =>
      match e with
      | .httpExn c d =>
          match compensation s1 with
          | .ok _ s2 => .err (.httpExn c d) s2
          | .err _ s2 => .err (.httpExn c d) s2
      | e1 => .err e1 s1

/-- Delete a transaction row by id (`client.table("transactions").delete()`). -/
def deleteTransactionById (txId : Nat) : PyM Unit :=
  modifyStore (fun s =>
    { s with transactions := s.transactions.filter (fun t => t.id ≠ txId) })

/-- Delete balance events by their `transaction_id` column. -/
def deleteEventsByTransactionId (txIdVal : PyVal) : PyM Unit :=
  modifyStore (fun s =>
    { s with events := s.events.filter (fun ev =>
        !(match ev.txId with
          | some t => pyEqPrim (.int t) txIdVal
          | Option.none => false)) })

/-- `create_transaction` (`transactions.py:240`): the full validation
gauntlet, then the insert, then the balance-event call — which passes a
`transaction_id` keyword that `create_balance_event` does not accept.
Returns the inserted row's dict. -/
def createTransaction (userId : String) (payload0 : List (String × PyVal)) :
    PyM PyVal := do
  let budgetIdV := dictGet payload0 "budget_id"
  if !pyTruthy budgetIdV then
    pyThrow (.httpExn 400 "budget_id is required")
  else do
    let s0 ← getStore
    let budgetId ←
      match s0.budgets.find?
          (fun b => pyEqPrim (.int b.fst) budgetIdV ∧ b.snd = userId) with
      | some b => pure b.fst
      | Option.none => pyThrow (.httpExn 403 "Budget not found for user")
    let txType := dictGet payload0 "type"
    let kind0 := dictGet payload0 "kind"
    let accountId := dictGet payload0 "account_id"
    let toAccountId := dictGet payload0 "to_account_id"
    let categoryId := dictGet payload0 "category_id"
    let goalId := dictGet payload0 "goal_id"
    let kp : PyVal × List (String × PyVal) :=
      match kind0 with
      | .none =>
          let k : PyVal :=
            .str (if pyEqStr txType "transfer" then "transfer" else "normal")
          (k, dictSet payload0 "kind" k)
      | k => (k, payload0)
    let kind := kp.fst
    let payload := kp.snd
    if !pyValInStrs kind ["normal", "transfer", "goal_transfer", "debt"] then
      pyThrow (.httpExn 400 "Invalid transaction kind")
    else if pyEqStr txType "transfer" ∧ ¬ pyEqStr kind "transfer" then
      pyThrow (.httpExn 400 "Transfers must have kind=transfer")
    else if pyValInStrs txType ["income", "expense", "fee"] ∧
        pyEqStr kind "transfer" then
      pyThrow (.httpExn 400 "Income/expense cannot have kind=transfer")
    else do
      if pyEqStr txType "transfer" then
        if !pyTruthy accountId ∨ !pyTruthy toAccountId then
          pyThrow (.httpExn 400
            "account_id and to_account_id are required for transfers")
        else if pyEqPrim accountId toAccountId then
          pyThrow (.httpExn 400 "Transfer accounts must be different")
        else do
          ensureAccountInBudget budgetId accountId "account"
          ensureAccountInBudget budgetId toAccountId "to_account"
          match categoryId with
          | .none => pure ()
          | _ => pyThrow (.httpExn 400 "Transfers cannot have a category")
      else if pyValInStrs txType ["income", "expense", "fee"] then
        if !pyTruthy accountId then
          pyThrow (.httpExn 400 "account_id is required for income/expense/fee")
        else do
          match toAccountId with
          | .none => pure ()
          | _ => pyThrow (.httpExn 400
              "to_account_id must be null for income/expense/fee")
          ensureAccountInBudget budgetId accountId "account"
          if pyValInStrs txType ["income", "expense", "fee"] then
            ensureCategoryMatchesTransaction budgetId categoryId
              (match txType with | .str t => t | _ => "")
          else pure ()
      else pyThrow (.httpExn 400 "Invalid transaction type")
      if pyEqStr kind "goal_transfer" then
        if !pyTruthy goalId then
          pyThrow (.httpExn 400 "goal_id is required for goal transfers")
        else
          match categoryId with
          | .none => pure ()
          | _ => pyThrow (.httpExn 400 "Goal transfers cannot have a category")
      else pure ()
      match kind, goalId with
      | k, g =>
          if pyEqStr k "debt" ∧ !(match g with | .none => true | _ => false) then
            pyThrow (.httpExn 400 "Debt operations cannot have a goal")
          else pure ()
      let id ← freshId
      let row : TxRow := { id := id, userId := userId, fields := payload }
      modifyStore (fun s => { s with transactions := s.transactions ++ [row] })
      let transaction : PyVal :=
        .dict (payload ++ [("user_id", .str userId), ("id", .int id)])
      if pyEqStr kind "goal_transfer" then do
        let targetDate ← liftEx (parsePayloadDate (dictGet payload "date"))
        let amount ← liftEx (pyInt (dictGet payload "amount"))
        let delta := if pyEqStr txType "income" then amount else -amount
        let _ ← catchHttpWith
          (callCreateBalanceEventWithTransactionId userId budgetId targetDate
            accountId delta "goal_transfer" (.int id))
          (deleteTransactionById id)
        pure transaction
      else if pyEqStr txType "transfer" then do
        let targetDate ← liftEx (parsePayloadDate (dictGet payload "date"))
        let amount ← liftEx (pyInt (dictGet payload "amount"))
        let _ ← catchHttpWith
          (do
            let _ ← callCreateBalanceEventWithTransactionId userId budgetId
              targetDate accountId (-amount) "transfer" (.int id)
            let _ ← callCreateBalanceEventWithTransactionId userId budgetId
              targetDate toAccountId amount "transfer" (.int id)
            pure ())
          (do
            deleteEventsByTransactionId (.int id)
            deleteTransactionById id)
        pure transaction
      else do
        if pyValInStrs txType ["income", "expense", "fee"] then do
          let targetDate ← liftEx (parsePayloadDate (dictGet payload "date"))
          let amount ← liftEx (pyInt (dictGet payload "amount"))
          let delta := if pyEqStr txType "income" then amount else -amount
          let _ ← catchHttpWith
            (callCreateBalanceEventWithTransactionId userId budgetId targetDate
              accountId delta "transaction" (.int id))
            (deleteTransactionById id)
          pure transaction
        else pure transaction

/-- `create_account` (`repositories/accounts.py:43`): insert the account row;
a positive initial amount books an initial-balance income transaction through
`create_transaction` (the serializer renders the date as its ISO string). -/
def createAccount (userId : String) (budgetId : Nat) (name kind : String)
    (activeFrom : Nat) (initialAmount : Int) : PyM AccountRow := do
  ensureBudgetAccess userId budgetId
  let id ← freshId
  let row : AccountRow :=
    { id := id, budgetId := budgetId, name := name, kind := kind,
      activeFrom := activeFrom }
  modifyStore (fun s => { s with accounts := s.accounts ++ [row] })
  if initialAmount > 0 then do
    let _ ← createTransaction userId
      [("budget_id", .int budgetId), ("type", .str "income"),
       ("kind", .str "normal"), ("amount", .int initialAmount),
       ("date", .str (isoOfDateNum activeFrom)), ("account_id", .int id),
       ("tag", .str "one_time"), ("note", .str "Начальный остаток")]
    pure row
  else pure row

/-- `get_statement_draft` (`statement_drafts.py:85`). -/
def getStatementDraft (userId : String) (draftId : Nat) : PyM DraftRow := do
  let s ← getStore
  match s.drafts.find? (fun d => d.id = draftId ∧ d.userId = userId) with
  | some d => pure d
  | Option.none => pyThrow (.httpExn 404 "Draft not found")

/-- The update dict passed to `update_statement_draft`, restricted to the
fields this core writes (`updated_at` timestamps are not modelled). -/
structure DraftUpdate where
  status : Option String := Option.none
  draftPayload : Option PyVal := Option.none
  feedback : Option PyVal := Option.none

/-- `update_statement_draft` (`statement_drafts.py:63`). -/
def updateStatementDraft (userId : String) (draftId : Nat)
    (upd : DraftUpdate) : PyM DraftRow := do
  let s ← getStore
  match s.drafts.find? (fun d => d.id = draftId ∧ d.userId = userId) with
  | Option.none => pyThrow (.httpExn 404 "Draft not found")
  | some d0 =>
      let d1 : DraftRow :=
        { d0 with
          status := upd.status.getD d0.status
          payload := upd.draftPayload.getD d0.payload
          feedback := upd.feedback.getD d0.feedback }
      setStore { s with drafts := (s.drafts.map
        (fun d => if d.id = draftId ∧ d.userId = userId then d1 else d)) }
      pure d1

/-- `create_statement_draft` (`statement_drafts.py:30`): its exact parameter
list — it has no `status` parameter (the insert hardcodes `status="draft"`). -/
def createStatementDraftParams : List String :=
  ["user_id", "budget_id", "source_filename", "source_mime", "source_text",
   "model", "draft_payload"]

/-- `create_statement_draft` body. -/
def createStatementDraft (userId : String) (budgetId : Nat)
    (sourceFilename sourceMime : PyVal) (sourceText model : String)
    (draftPayload : PyVal) : PyM DraftRow := do
  ensureBudgetAccess userId budgetId
  let id ← freshId
  let row : DraftRow :=
    { id := id, userId := userId, budgetId := budgetId, status := "draft",
      sourceFilename := sourceFilename, sourceMime := sourceMime,
      sourceText := sourceText, model := model, payload := draftPayload,
      feedback := .none }
  modifyStore (fun s => { s with drafts := s.drafts ++ [row] })
  pure row

/-- The call shape `create_statement_draft(..., status="failed")` used by
`post_statement_draft` (`ai_routes.py:756`, `:782`): Python raises
`TypeError` for a keyword argument absent from the callee's parameter list,
before the callee body runs. -/
def callCreateStatementDraftKw (kwNames : List String) (userId : String)
    (budgetId : Nat) (sourceFilename sourceMime : PyVal)
    (sourceText model : String) (draftPayload : PyVal) : PyM DraftRow :=
  if kwNames.any (fun k => !createStatementDraftParams.contains k) then
    pyThrow (.typeError
      "create_statement_draft() got an unexpected keyword argument status")
  else
    createStatementDraft userId budgetId sourceFilename sourceMime sourceText
      model draftPayload

/-- `get_debts_as_of` (`daily_state.py:125`): latest `daily_state` row of the
user and budget on or before the date, defaulting to zero totals. -/
def getDebtsAsOf (userId : String) (budgetId : Nat) (targetDate : Nat) :
    PyM (Int × Int) := do
  ensureBudgetAccess userId budgetId
  let s ← getStore
  let rows := s.daily.filter
    (fun r => r.budgetId = budgetId ∧ r.userId = userId ∧ r.date ≤ targetDate)
  let best := rows.foldl
    (fun acc r =>
      match acc with
      | Option.none => some r
      | some b => if r.date > b.date then some r else acc) Option.none
  match best with
  | Option.none => pure (0, 0)
  | some r => pure (r.debtCardsTotal, r.debtOtherTotal)

/-- `get_state` (`daily_state.py:66`): the row of the budget at exactly the
date (the query filters by budget and date only). -/
def getState (userId : String) (budgetId : Nat) (targetDate : Nat) :
    PyM (Option DailyRow) := do
  ensureBudgetAccess userId budgetId
  let s ← getStore
  pure (s.daily.find? (fun r => r.budgetId = budgetId ∧ r.date = targetDate))

/-- `upsert_debts` (`daily_state.py:167`): carry the existing-or-as-of totals,
override with the provided ones, reject negatives with HTTP 422, and upsert
on `(budget_id, date)`.  When both arguments are `None` the source returns
`get_state_as_of` without writing; both call sites of this core pass concrete
integers and discard the return value, so that read-only branch is a no-op
here. -/
def upsertDebts (userId : String) (budgetId : Nat) (targetDate : Nat)
    (creditCards peopleDebts : Option Int) : PyM Unit := do
  ensureBudgetAccess userId budgetId
  match creditCards, peopleDebts with
  | Option.none, Option.none => pure ()
  | _, _ => do
      let existing ← getState userId budgetId targetDate
      let asOf ← getDebtsAsOf userId budgetId targetDate
      let cash := match existing with | some r => r.cashTotal | Option.none => 0
      let bank := match existing with | some r => r.bankTotal | Option.none => 0
      let cards0 := match existing with
        | some r => r.debtCardsTotal
        | Option.none => asOf.fst
      let other0 := match existing with
        | some r => r.debtOtherTotal
        | Option.none => asOf.snd
      let cards := creditCards.getD cards0
      let other := peopleDebts.getD other0
      if cards < 0 ∨ other < 0 then
        pyThrow (.httpExn 422 "Значение не может быть меньше 0")
      else
        modifyStore (fun s =>
          let row : DailyRow :=
            { budgetId := budgetId, userId := userId, date := targetDate,
              cashTotal := cash, bankTotal := bank, debtCardsTotal := cards,
              debtOtherTotal := other }
          if s.daily.any (fun r => r.budgetId = budgetId ∧ r.date = targetDate) then
            { s with daily := (s.daily.map
                (fun r => if r.budgetId = budgetId ∧ r.date = targetDate then row
                  else r)) }
          else { s with daily := s.daily ++ [row] })

/-- Assoc lookup on `Nat` keys. -/
def assocGetNat (xs : List (Nat × Int)) (k : Nat) : Option Int :=
  (xs.find? (fun p => p.fst == k)).map Prod.snd

/-- `get_balances_as_of` (`account_balance_events.py:86`): per-account sums
of event deltas up to the date, for the user's events of the budget. -/
def getBalancesAsOf (userId : String) (budgetId : Nat) (targetDate : Nat) :
    PyM (List (Nat × Int)) := do
  let accounts ← listAccounts userId budgetId Option.none
  ensureBudgetAccess userId budgetId
  let s ← getStore
  let events := s.events.filter
    (fun ev => ev.budgetId = budgetId ∧ ev.userId = userId ∧
      ev.date ≤ targetDate)
  pure (accounts.map (fun a =>
    (a.id, (events.filter (fun ev => pyEqPrim (.int a.id) ev.accountId)).foldl
      (fun acc ev => acc + ev.delta) 0)))

/-- `get_accounts_with_balances` (`account_balance_events.py:117`). -/
def getAccountsWithBalances (userId : String) (budgetId : Nat)
    (targetDate : Nat) : PyM (List PyVal) := do
  let accounts ← listAccounts userId budgetId Option.none
  let balances ← getBalancesAsOf userId budgetId targetDate
  pure (accounts.map (fun a => .dict
    [("account_id", .int a.id), ("name", .str a.name),
     ("kind", .str a.kind),
     ("amount", .int ((assocGetNat balances a.id).getD 0))]))

/-! ## Apply Orchestrator (`apply_statement_draft`, `ai_routes.py:938`) -/

/-- `_normalize_amount` (`ai_routes.py:215`): reject bools and non-numbers,
round to two decimals (bankers' rounding, as Python `round`). -/
def normalizeAmount : PyVal → Except PyExn PyFloat
  | .bool _ => .error (.valueError "Invalid amount")
  | .int n => .ok (pyRound2 (PyFloat.ofInt n))
  | .float q => .ok (pyRound2 q)
  | _ => .error (.valueError "Invalid amount")

/-- `_normalize_statement_transactions` (`ai_routes.py:221`): overwrite each
item's `amount` in place with its normalized value. -/
def normalizeStatementTransactions : List PyVal → Except PyExn (List PyVal)
  | [] => .ok []
  | item :: rest => do
      let raw ← pyGet item "amount"
      let a ← normalizeAmount raw
      match item with
      | .dict xs => do
          let tail ← normalizeStatementTransactions rest
          .ok (.dict (dictSet xs "amount" (.float a)) :: tail)
      | _ => .error (.typeError "object does not support item assignment")

/-- `{**payload, k: v}` / `payload[k] = v` on a dict value. -/
def pyDictWith (v : PyVal) (k : String) (val : PyVal) : Except PyExn PyVal :=
  match v with
  | .dict xs => .ok (.dict (dictSet xs k val))
  | _ => .error (.typeError "object does not support item assignment")

/-- `dt.date.fromisoformat` applied to a Python value (`TypeError` on
non-strings, `ValueError` on invalid strings). -/
def fromisoformatVal : PyVal → Except PyExn Nat
  | .str s =>
      match isoDate s with
      | some d => .ok d
      | Option.none => .error (.valueError "Invalid isoformat string")
  | _ => .error (.typeError "fromisoformat argument must be str")

/-- The `missing_account_names` / `missing_category_names` set comprehension
of `_validate_apply_operations` (`ai_routes.py:256`), as a membership list
(duplicates are harmless). -/
def missingNamesSet : List PyVal → Except PyExn (List String)
  | [] => .ok []
  | item :: rest => do
      let s ← pyStripField item "name"
      let tail ← missingNamesSet rest
      .ok (if s ≠ "" then pyLower s :: tail else tail)

/-- The `details` dict of an `invalid_operation_payload` validation error. -/
def invalidOpDetails (index : Nat) (field : String) (value : PyVal)
    (expected : String) : PyVal :=
  .dict [("operation_index", .int index), ("field", .str field),
    ("value", value), ("expected", .str expected)]

/-- The account/type/category checks of one `_validate_apply_operations`
iteration, after the date and amount checks (`ai_routes.py:326` onward). -/
def validateOneApplyOpAfterAmount (index : Nat) (xs : List (String × PyVal))
    (accountMap categoryMap : List (String × Nat))
    (accountIds categoryIds : List Nat)
    (missingAccountNames missingCategoryNames : List String) :
    Except PyExn (Option (String × PyVal) × List String) := do
  let bad := fun (field : String) (value : PyVal) (expected : String) =>
    (Except.ok (α := Option (String × PyVal) × List String)
      (some ("invalid_operation_payload",
        invalidOpDetails index field value expected), missingCategoryNames))
  let opType := dictGet xs "type"
  if !pyTruthy opType then bad "type" opType "string"
  else if !pyValInStrs opType ["income", "expense", "transfer", "fee"] then
    bad "type" opType "income|expense|transfer|fee"
  else do
    let accountId := dictGet xs "account_id"
    let accountNameRaw ← pyStripOrEmpty (dictGet xs "account_name")
    let accountName := pyLower accountNameRaw
    let accountRefOk ←
      if pyTruthy accountId then
        if !pyValInNats accountId accountIds then
          pure (some ("account_id", accountId, "existing account"))
        else pure Option.none
      else if accountName ≠ "" then
        if (assocGet accountMap accountName).isNone ∧
            !missingAccountNames.contains accountName then
          pure (some ("account_name", PyVal.str accountName,
            "existing or creatable account"))
        else pure Option.none
      else pure (some ("account_ref", PyVal.none, "account_id or account_name"))
    match accountRefOk with
    | some (f, v, e) => bad f v e
    | Option.none => do
        let transferBad ←
          if pyEqStr opType "transfer" then do
            let toAccountId := dictGet xs "to_account_id"
            let toNameRaw ← pyStripOrEmpty (dictGet xs "to_account_name")
            let toName := pyLower toNameRaw
            if pyTruthy toAccountId then
              if !pyValInNats toAccountId accountIds then
                pure (some ("to_account_id", toAccountId, "existing account"))
              else pure Option.none
            else if toName ≠ "" then
              if (assocGet accountMap toName).isNone ∧
                  !missingAccountNames.contains toName then
                pure (some ("to_account_name", PyVal.str toName,
                  "existing or creatable account"))
              else pure Option.none
            else pure (some ("to_account_ref", PyVal.none,
              "to_account_id or to_account_name"))
          else pure Option.none
        match transferBad with
        | some (f, v, e) => bad f v e
        | Option.none =>
            if pyValInStrs opType ["expense", "fee"] then do
              let categoryId := dictGet xs "category_id"
              let catNameRaw ← pyStripOrEmpty (dictGet xs "category_name")
              let catName := pyLower catNameRaw
              if pyTruthy categoryId then
                if !pyValInNats categoryId categoryIds then
                  bad "category_id" categoryId "existing category"
                else .ok (Option.none, missingCategoryNames)
              else if catName ≠ "" then
                if (assocGet categoryMap catName).isNone ∧
                    !missingCategoryNames.contains catName then
                  bad "category_name" (PyVal.str catName)
                    "existing or creatable category"
                else .ok (Option.none, missingCategoryNames)
              else if pyEqStr opType "expense" then
                if (assocGet categoryMap "прочее").isNone ∧
                    !missingCategoryNames.contains "прочее" then
                  .ok (Option.none, missingCategoryNames ++ ["прочее"])
                else .ok (Option.none, missingCategoryNames)
              else .ok (Option.none, missingCategoryNames)
            else .ok (Option.none, missingCategoryNames)

/-- One iteration of the `_validate_apply_operations` loop
(`ai_routes.py:268`): either an error result (stopping the loop) or the
possibly-grown `missing_category_names` set (the `elif op_type == "expense"`
arm adds `прочее`, `ai_routes.py:452`). -/
def validateOneApplyOp (index : Nat) (item : PyVal)
    (accountMap categoryMap : List (String × Nat))
    (accountIds categoryIds : List Nat)
    (missingAccountNames missingCategoryNames : List String) :
    Except PyExn (Option (String × PyVal) × List String) :=
  match item with
  | .dict xs =>
      let bad := fun (field : String) (value : PyVal) (expected : String) =>
        (Except.ok (α := Option (String × PyVal) × List String)
          (some ("invalid_operation_payload",
            invalidOpDetails index field value expected), missingCategoryNames))
      let dateValue := dictGet xs "date"
      if !pyTruthy dateValue then bad "date" dateValue "YYYY-MM-DD"
      else
        match dateValue with
        | .str ds =>
            if (isoDate ds).isNone then bad "date" dateValue "YYYY-MM-DD"
            else
              let amountValue := dictGet xs "amount"
              match amountValue with
              | .str _ => bad "amount" amountValue "number"
              | .bool _ => bad "amount" amountValue "number"
              | .int _ =>
                  validateOneApplyOpAfterAmount index xs accountMap categoryMap
                    accountIds categoryIds missingAccountNames
                    missingCategoryNames
              | .float _ =>
                  validateOneApplyOpAfterAmount index xs accountMap categoryMap
                    accountIds categoryIds missingAccountNames
                    missingCategoryNames
              | _ => bad "amount" amountValue "number"
        | _ => bad "date" dateValue "YYYY-MM-DD"
  | _ =>
      .ok (some ("invalid_operation_payload",
        invalidOpDetails index "operation" item "object"), missingCategoryNames)

/-- The `for index, item in enumerate(transactions, start=1)` loop of
`_validate_apply_operations`. -/
def validateApplyLoop (items : List PyVal) (index : Nat)
    (accountMap categoryMap : List (String × Nat))
    (accountIds categoryIds : List Nat)
    (missingAccountNames missingCategoryNames : List String) :
    Except PyExn (Option (String × PyVal)) :=
  match items with
  | [] => .ok Option.none
  | item :: rest => do
      let r ← validateOneApplyOp index item accountMap categoryMap accountIds
        categoryIds missingAccountNames missingCategoryNames
      match r.fst with
      | some err => .ok (some err)
      | Option.none =>
          validateApplyLoop rest (index + 1) accountMap categoryMap
            accountIds categoryIds missingAccountNames r.snd

/-- `_validate_apply_operations` (`ai_routes.py:244`): `None` when the
operations pass, otherwise the `(reason, details)` of the first violation. -/
def validateApplyOperations (transactions : List PyVal)
    (accountMap categoryMap : List (String × Nat))
    (missingAccounts missingCategories : List PyVal) :
    Except PyExn (Option (String × PyVal)) :=
  if transactions.isEmpty then
    .ok (some ("empty_operations",
      .dict [("message", .str "Draft has no operations")]))
  else do
    let missingAccountNames ← missingNamesSet missingAccounts
    let missingCategoryNames ← missingNamesSet missingCategories
    validateApplyLoop transactions 1 accountMap categoryMap
      (accountMap.map Prod.snd) (categoryMap.map Prod.snd)
      missingAccountNames missingCategoryNames

/-- `_rollback_statement_apply` (`ai_routes.py:458`): delete balance events
and transactions recorded in the apply locals (events first, by
`transaction_id`), then adjustment events, accounts and categories, and
re-upsert the previously captured debt totals when a `debts` block had been
applied. -/
def rollbackStatementApply (userId : String) (draft : DraftRow)
    (payload : PyVal) : PyM Unit := do
  let l := (← getStore).locals
  if !l.createdTransactionIds.isEmpty then do
    modifyStore (fun s =>
      { s with events := (s.events.filter (fun ev =>
          !(match ev.txId with
            | some t => l.createdTransactionIds.contains t
            | Option.none => false))) })
    modifyStore (fun s =>
      { s with transactions := (s.transactions.filter
          (fun t => !l.createdTransactionIds.contains t.id)) })
  else pure ()
  if !l.createdAdjustmentEventIds.isEmpty then
    modifyStore (fun s =>
      { s with events := (s.events.filter
          (fun ev => !l.createdAdjustmentEventIds.contains ev.id)) })
  else pure ()
  if !l.createdAccountIds.isEmpty then
    modifyStore (fun s =>
      { s with accounts := (s.accounts.filter
          (fun a => !l.createdAccountIds.contains a.id)) })
  else pure ()
  if !l.createdCategoryIds.isEmpty then
    modifyStore (fun s =>
      { s with categories := (s.categories.filter
          (fun c => !l.createdCategoryIds.contains c.id)) })
  else pure ()
  let debtsV ← liftEx (pyGet payload "debts")
  match l.previousDebts with
  | some prev =>
      if pyTruthy debtsV then do
        let target ← liftEx (fromisoformatVal (← liftEx (pyGet debtsV "date")))
        upsertDebts userId draft.budgetId target (some prev.fst)
          (some prev.snd)
      else pure ()
  | Option.none => pure ()

/-- Id extraction for `created_transaction_ids.append(transaction["id"])`. -/
def pyValToNatId : PyVal → Option Nat
  | .int n => if n ≥ 0 then some n.toNat else Option.none
  | _ => Option.none

/-- The `missing_categories` creation loop of the apply body
(`ai_routes.py:1028`), returning the updated `category_map`. -/
def applyMissingCategoriesLoop (userId : String) (budgetId : Nat)
    (items : List PyVal) (categoryMap : List (String × Nat)) :
    PyM (List (String × Nat)) :=
  match items with
  | [] => pure categoryMap
  | item :: rest => do
      let name ← liftEx (pyStripField item "name")
      if name = "" then
        applyMissingCategoriesLoop userId budgetId rest categoryMap
      else if (assocGet categoryMap (pyLower name)).isSome then
        applyMissingCategoriesLoop userId budgetId rest categoryMap
      else do
        let cat ← createCategory userId budgetId name
        modifyStore (fun s =>
          { s with locals := { s.locals with createdCategoryIds :=
              s.locals.createdCategoryIds ++ [cat.id] } })
        applyMissingCategoriesLoop userId budgetId rest
          (assocSet categoryMap (pyLower name) cat.id)

/-- The `missing_accounts` creation loop of the apply body
(`ai_routes.py:1042`), returning the updated `account_map`. -/
def applyMissingAccountsLoop (userId : String) (budgetId : Nat)
    (items : List PyVal) (accountMap : List (String × Nat)) (asOf : Nat) :
    PyM (List (String × Nat)) :=
  match items with
  | [] => pure accountMap
  | item :: rest => do
      let name ← liftEx (pyStripField item "name")
      if name = "" then
        applyMissingAccountsLoop userId budgetId rest accountMap asOf
      else if (assocGet accountMap (pyLower name)).isSome then
        applyMissingAccountsLoop userId budgetId rest accountMap asOf
      else do
        let kindRaw ← liftEx (pyLowerVal (pyOr (← liftEx (pyGet item "kind"))
          (.str "bank")))
        let kind1 := if kindRaw = "card" then "bank" else kindRaw
        let kind := if kind1 = "cash" ∨ kind1 = "bank" then kind1 else "bank"
        let acct ← createAccount userId budgetId name kind asOf 0
        modifyStore (fun s =>
          { s with locals := { s.locals with createdAccountIds :=
              s.locals.createdAccountIds ++ [acct.id] } })
        applyMissingAccountsLoop userId budgetId rest
          (assocSet accountMap (pyLower name) acct.id) asOf

/-- The short-circuiting
`any(item.get("type") == "expense" and not (...).strip() for item in ...)`
of `ai_routes.py:1069`. -/
def anyExpenseWithoutCategoryName : List PyVal → Except PyExn Bool
  | [] => .ok false
  | item :: rest => do
      let t ← pyGet item "type"
      if pyEqStr t "expense" then do
        let cn ← pyStripField item "category_name"
        if cn = "" then .ok true
        else anyExpenseWithoutCategoryName rest
      else anyExpenseWithoutCategoryName rest

/-- The per-operation transaction-creation loop of the apply body
(`ai_routes.py:1082`): re-resolve ids from the final name maps, raise
`ValueError` for unresolvable accounts, build the transaction payload and
call `create_transaction`, recording created transactions and ids. -/
def applyTransactionsLoop (userId : String) (budgetId : Nat)
    (items : List PyVal) (index : Nat)
    (accountMap categoryMap : List (String × Nat)) : PyM Unit :=
  match items with
  | [] => pure ()
  | item0 :: rest => do
      let aid0 ← liftEx (pyGet item0 "account_id")
      let item1 ←
        if !pyTruthy aid0 then do
          let an ← liftEx (pyStripField item0 "account_name")
          liftEx (pyDictWith item0 "account_id"
            (optNat (assocGet accountMap (pyLower an))))
        else pure item0
      let aid1 ← liftEx (pyGet item1 "account_id")
      if !pyTruthy aid1 then
        pyThrow (.valueError ("Не найден счет для транзакции: " ++
          pyStrOf (← liftEx (pyGet item1 "account_name"))))
      else do
        let item2 ←
          if pyEqStr (← liftEx (pyGet item1 "type")) "transfer" ∧
              !pyTruthy (← liftEx (pyGet item1 "to_account_id")) then do
            let tn ← liftEx (pyStripField item1 "to_account_name")
            liftEx (pyDictWith item1 "to_account_id"
              (optNat (assocGet accountMap (pyLower tn))))
          else pure item1
        if pyEqStr (← liftEx (pyGet item2 "type")) "transfer" ∧
            !pyTruthy (← liftEx (pyGet item2 "to_account_id")) then
          pyThrow (.valueError ("Не найден счет назначения для перевода: " ++
            pyStrOf (← liftEx (pyGet item2 "to_account_name"))))
        else do
          let item3 ←
            if pyEqStr (← liftEx (pyGet item2 "type")) "expense" ∧
                !pyTruthy (← liftEx (pyGet item2 "category_id")) then do
              let cn ← liftEx (pyStripField item2 "category_name")
              let cnL := pyLower cn
              if cnL ≠ "" then
                liftEx (pyDictWith item2 "category_id"
                  (optNat (assocGet categoryMap cnL)))
              else
                liftEx (pyDictWith item2 "category_id"
                  (optNat (assocGet categoryMap "прочее")))
            else pure item2
          let item4 ←
            if pyEqStr (← liftEx (pyGet item3 "type")) "fee" ∧
                !pyTruthy (← liftEx (pyGet item3 "category_id")) then do
              let cn ← liftEx (pyStripField item3 "category_name")
              let cnL := pyLower cn
              if cnL ≠ "" then
                liftEx (pyDictWith item3 "category_id"
                  (optNat (assocGet categoryMap cnL)))
              else pure item3
            else pure item3
          let txPayload0 : List (String × PyVal) :=
            [("budget_id", .int budgetId),
             ("type", ← liftEx (pyGet item4 "type")),
             ("kind", pyOr (← liftEx (pyGet item4 "kind")) (.str "normal")),
             ("amount", ← liftEx (pyGet item4 "amount")),
             ("date", ← liftEx (pyGet item4 "date")),
             ("account_id", ← liftEx (pyGet item4 "account_id")),
             ("to_account_id", ← liftEx (pyGet item4 "to_account_id")),
             ("category_id", ← liftEx (pyGet item4 "category_id")),
             ("tag", pyOr (← liftEx (pyGet item4 "tag")) (.str "one_time")),
             ("note", ← liftEx (pyGet item4 "note"))]
          let debt ← liftEx (pyGet item4 "debt")
          let txPayload :=
            if pyTruthy debt then
              dictSet (dictSet txPayload0 "kind" (.str "debt")) "note"
                (.str (pyJsonDumps debt))
            else txPayload0
          let transaction ← createTransaction userId txPayload
          modifyStore (fun s =>
            { s with locals := { s.locals with createdTransactions :=
                s.locals.createdTransactions ++ [transaction] } })
          let idV ← liftEx (pyGet transaction "id")
          if pyTruthy idV then
            modifyStore (fun s =>
              { s with locals := { s.locals with createdTransactionIds :=
                  s.locals.createdTransactionIds ++ (pyValToNatId idV).toList } })
          else pure ()
          applyTransactionsLoop userId budgetId rest (index + 1) accountMap
            categoryMap

/-- The `balance_adjustments` loop of the apply body (`ai_routes.py:1137`):
resolve the target account by name against a freshly listed account map,
create a `reconcile_adjust` event, and record its id. -/
def applyAdjustmentsLoop (userId : String) (budgetId : Nat)
    (items : List PyVal) : PyM Unit :=
  match items with
  | [] => pure ()
  | adjust :: rest => do
      let an ← liftEx (pyStripField adjust "account_name")
      let anL := pyLower an
      let accountsAll ← listAccounts userId budgetId Option.none
      let amap := accountNameMap accountsAll
      match assocGet amap anL with
      | Option.none =>
          pyThrow (.valueError ("Не найден счет для корректировки: " ++ anL))
      | some accountId => do
          let dateN ← liftEx (fromisoformatVal (← liftEx (pyGet adjust "date")))
          let delta ← liftEx (pyInt (← liftEx (pyGetD adjust "delta" (.int 0))))
          let event ← createBalanceEvent userId budgetId dateN (.int accountId)
            delta "reconcile_adjust"
          modifyStore (fun s =>
            { s with locals := { s.locals with createdAdjustmentEventIds :=
                s.locals.createdAdjustmentEventIds ++ [event.id] } })
          applyAdjustmentsLoop userId budgetId rest

/-- Outcome of the apply endpoint: the success body, a structured
`statement_apply_failed` JSON response, or (as `PyResult.err`) an uncaught
exception. -/
inductive ApplyOutcome where
  | success (draft : DraftRow) (createdTransactions : List PyVal)
      (errors : List String)
  | failedResp (statusCode : Nat) (reason : PyVal) (details : PyVal)

/-- The `try` body of `apply_statement_draft` (`ai_routes.py:1024`-`1179`):
entity materialization, default category, transactions, balance adjustments,
debts, then the `applied` commit. -/
def applyBody (currentUser : String) (draft : DraftRow) (draftId : Nat)
    (today : Nat) (transactions : List PyVal) (payload : PyVal)
    (missingAccounts missingCategories : List PyVal)
    (accountMap0 categoryMap0 : List (String × Nat)) : PyM ApplyOutcome := do
  let _ ←
    if !missingCategories.isEmpty then
      applyMissingCategoriesLoop currentUser draft.budgetId missingCategories
        categoryMap0
    else pure categoryMap0
  let _ ←
    if !missingAccounts.isEmpty then
      applyMissingAccountsLoop currentUser draft.budgetId missingAccounts
        accountMap0 today
    else pure accountMap0
  let accounts ← listAccounts currentUser draft.budgetId (some today)
  let categories ← listCategories currentUser draft.budgetId
  let accountMap := accountNameMap accounts
  let categoryMap2 := categoryNameMap categories
  let needDefault ← liftEx (anyExpenseWithoutCategoryName transactions)
  let categoryMap3 ←
    if needDefault then
      if (assocGet categoryMap2 "прочее").isNone then do
        let cat ← createCategory currentUser draft.budgetId "Прочее"
        modifyStore (fun s =>
          { s with locals := { s.locals with createdCategoryIds :=
              s.locals.createdCategoryIds ++ [cat.id] } })
        pure (assocSet categoryMap2 "прочее" cat.id)
      else pure categoryMap2
    else pure categoryMap2
  applyTransactionsLoop currentUser draft.budgetId transactions 1 accountMap
    categoryMap3
  let adjustments ← liftEx (pyIterOrEmpty
    (← liftEx (pyGet payload "balance_adjustments")))
  applyAdjustmentsLoop currentUser draft.budgetId adjustments
  let debtsV ← liftEx (pyGet payload "debts")
  if pyTruthy debtsV then do
    let target ← liftEx (fromisoformatVal (← liftEx (pyGet debtsV "date")))
    let previous ← getDebtsAsOf currentUser draft.budgetId target
    modifyStore (fun s =>
      { s with locals := { s.locals with previousDebts := some previous } })
    let cc ← liftEx (pyInt (← liftEx (pyGetD debtsV "credit_cards_total"
      (.int 0))))
    let pd ← liftEx (pyInt (← liftEx (pyGetD debtsV "people_debts_total"
      (.int 0))))
    upsertDebts currentUser draft.budgetId target (some cc) (some pd)
  else pure ()
  let updated ← updateStatementDraft currentUser draftId
    { status := some "applied" }
  let createdTx := (← getStore).locals.createdTransactions
  pure (.success updated createdTx [])

/-- The `except` ladder of `apply_statement_draft`: `HTTPException` is
re-raised untouched, `ValueError` and any other exception run their
handlers. -/
def pyTryExcept (body : PyM ApplyOutcome)
    (onValueError : String → PyM ApplyOutcome)
    (onOther : PyExn → PyM ApplyOutcome) : PyM ApplyOutcome := fun s =>
  match body s with
  | .ok a s1 => .ok a s1
  | .err (.httpExn c d) s1 => .err (.httpExn c d) s1
  | .err (.valueError m) s1 => onValueError m s1
  | .err e s1 => onOther e s1

/-- `str(exc)` of an exception, as stored in the failure payload. -/
def pyExnStr : PyExn → String
  | .valueError m => m
  | .typeError m => m
  | .attributeError m => m
  | .runtimeError m => m
  | .httpExn _ d => d

/-- The shared failure path of the apply handlers (`ai_routes.py:1182`-`1243`):
rollback, persist the draft as `failed` with the `apply_error`, and return
the structured error response. -/
def applyHandleFailure (currentUser : String) (draft : DraftRow)
    (draftId : Nat) (payload : PyVal) (reasonStored : String)
    (detailsStored : PyVal) (respCode : Nat) (respDetails : PyVal) :
    PyM ApplyOutcome := do
  rollbackStatementApply currentUser draft payload
  let applyError : PyVal :=
    .dict [("reason", .str reasonStored), ("details", detailsStored)]
  let newPayload ← liftEx (pyDictWith payload "apply_error" applyError)
  let _ ← updateStatementDraft currentUser draftId
    { status := some "failed", draftPayload := some newPayload }
  pure (.failedResp respCode (.str reasonStored) respDetails)

/-- The failed-status guard response (`ai_routes.py:963`-`969`): reason and
details from the stored `apply_error`, with `draft_failed` and a draft-id
dict as fallbacks. -/
def failedGuardResponse (payload0 : PyVal) (draftId : Nat) :
    Except PyExn ApplyOutcome := do
  let storedError := pyOr (← pyGet payload0 "apply_error") (.dict [])
  let reason := pyOr (← pyGet storedError "reason") (.str "draft_failed")
  let details := pyOr (← pyGet storedError "details")
    (.dict [("draft_id", .int draftId)])
  .ok (.failedResp 409 reason details)

/-- `apply_statement_draft` (`ai_routes.py:938`): the confirm and
terminal-status guards, the strict validation pass, and the rollback-guarded
apply body. -/
def applyStatementDraft (currentUser : String) (draftId : Nat)
    (confirm : Bool) (today : Nat) : PyM ApplyOutcome := do
  match confirm with
  | false => pyThrow (.httpExn 400 "Confirmation required")
  | true => do
    let draft ← getStatementDraft currentUser draftId
    let payload0 := pyOr draft.payload (.dict [])
    let ntsV ← liftEx (pyGet payload0 "normalized_transactions")
    let _opsCount ← liftEx (pyLen (pyOr ntsV (.list [])))
    if draft.status = "applied" then
      pure (.failedResp 409 (.str "already_applied")
        (.dict [("draft_id", .int draftId), ("status", .str "applied")]))
    else if draft.status = "failed" then
      liftEx (failedGuardResponse payload0 draftId)
    else do
      let transactions0 ← liftEx (pyIterOrEmpty ntsV)
      modifyStore (fun s => { s with locals := {} })
      let missingAccounts ← liftEx (pyIterOrEmpty
        (← liftEx (pyGet payload0 "missing_accounts")))
      let missingCategories ← liftEx (pyIterOrEmpty
        (← liftEx (pyGet payload0 "missing_categories")))
      let accounts ← listAccounts currentUser draft.budgetId (some today)
      let categories ← listCategories currentUser draft.budgetId
      let accountMap := accountNameMap accounts
      let categoryMap := categoryNameMap categories
      let validationError ← liftEx (validateApplyOperations transactions0
        accountMap categoryMap missingAccounts missingCategories)
      match validationError with
      | some rd => do
          let applyError : PyVal :=
            .dict [("reason", .str rd.fst), ("details", rd.snd)]
          let newPayload ← liftEx (pyDictWith payload0 "apply_error" applyError)
          let _ ← updateStatementDraft currentUser draftId
            { status := some "failed", draftPayload := some newPayload }
          pure (.failedResp 400 (.str rd.fst) rd.snd)
      | Option.none => do
          let transactions1 ← liftEx
            (normalizeStatementTransactions transactions0)
          let payload1 ← liftEx (pyDictWith payload0 "normalized_transactions"
            (.list transactions1))
          pyTryExcept
            (applyBody currentUser draft draftId today transactions1 payload1
              missingAccounts missingCategories accountMap categoryMap)
            (fun msg => applyHandleFailure currentUser draft draftId payload1
              "invalid_operation_payload" (.dict [("message", .str msg)]) 400
              (.dict [("message", .str msg)]))
            (fun e => applyHandleFailure currentUser draft draftId payload1
              "internal_error" (.dict [("message", .str (pyExnStr e))]) 500
              (.dict [("message", .str "Failed to apply statement draft")]))

/-! ## Draft creation (`post_statement_draft`, `ai_routes.py:670`),
text path -/

/-- `list_rules` (`repositories/rules.py:100`); rule rows are opaque to this
core (they are only forwarded to the LLM context), so the store holds the
user's rule dicts directly. -/
def listRules (userId : String) (budgetId : Nat) : PyM (List PyVal) := do
  ensureBudgetAccess userId budgetId
  let s ← getStore
  pure s.rules

/-- A category row rendered as the dict `list_categories` returns. -/
def categoryRowToPy (c : CategoryRow) : PyVal :=
  .dict [("id", .int c.id), ("budget_id", .int c.budgetId),
    ("name", .str c.name), ("parent_id", optNat c.parentId)]

/-- `_build_context` (`ai_routes.py:499`). -/
def buildContext (userId : String) (budgetId : Nat) (asOf : Nat) :
    PyM PyVal := do
  let accounts ← getAccountsWithBalances userId budgetId asOf
  let categories ← listCategories userId budgetId
  let debts ← getDebtsAsOf userId budgetId asOf
  let rules ← listRules userId budgetId
  pure (.dict
    [("as_of", .str (isoOfDateNum asOf)),
     ("accounts", .list accounts),
     ("categories", .list (categories.map categoryRowToPy)),
     ("debts", .dict [("debt_cards_total", .int debts.fst),
       ("debt_other_total", .int debts.snd)]),
     ("rules", .list rules)])

/-- Outcome of the external `generate_statement_draft` call (the LLM
boundary): a parsed JSON payload, or an `LLMError` with message and raw
response. -/
inductive LLMOutcome where
  | ok (payload : PyVal)
  | llmErr (msg raw : String)

/-- Result of `post_statement_draft`. -/
inductive PostOutcome where
  | created (draft : DraftRow) (payload : PyVal)

/-- The pasted-text path of `post_statement_draft` (`ai_routes.py:670`,
called with `file=None`), from the point the statement text is read to the
persisted draft.  The LLM call is the `llm` parameter; `llmModel` stands for
`settings.LLM_MODEL`.  On an `LLMError`, and on contract-validation
failure, the source persists a failed draft through
`create_statement_draft(..., status="failed")` — a keyword its parameter
list does not contain. -/
def postStatementDraftText (currentUser : String) (budgetId : Nat)
    (statementText : String) (source : Option String)
    (statementDate : Option Nat) (today : Nat) (llmModel : String)
    (llm : LLMOutcome) : PyM PostOutcome := do
  let trimmed := pyTrim statementText
  if trimmed = "" then
    pyThrow (.httpExn 422 "Statement file or text is required")
  else do
    let sourceMime : PyVal := match source with
      | some s => pyOr (.str s) (.str "text/plain")
      | Option.none => .str "text/plain"
    let sourceValue : PyVal := match source with
      | some s => .str s
      | Option.none => .none
    let statementTextValue := trimmed
    let asOf := statementDate.getD today
    let context0 ← buildContext currentUser budgetId asOf
    let context ←
      if pyTruthy sourceValue then
        liftEx (pyDictWith context0 "source" sourceValue)
      else pure context0
    match llm with
    | .llmErr msg raw => do
        let failedPayload : PyVal := .dict
          [("error", .str msg), ("llm_raw_response", .str raw)]
        let _ ← callCreateStatementDraftKw ["status"] currentUser budgetId
          .none sourceMime statementTextValue llmModel failedPayload
        pyThrow (.httpExn 400 "LLM response is invalid")
    | .ok draftPayload => do
        let validationErrors ← liftEx (validateDraftPayload draftPayload)
        if !validationErrors.isEmpty then do
          let failedPayload : PyVal := .dict
            [("error", .str "LLM response does not match contract"),
             ("validation_errors",
               .list (validationErrors.map (fun e => .str e))),
             ("llm_raw_response", .str (pyJsonDumps draftPayload))]
          let _ ← callCreateStatementDraftKw ["status"] currentUser budgetId
            .none sourceMime statementTextValue llmModel failedPayload
          pyThrow (.httpExn 400 "LLM response does not match contract")
        else do
          let accounts ← listAccounts currentUser budgetId (some asOf)
          let categories ← listCategories currentUser budgetId
          let payload1 ← liftEx (pyDictWith draftPayload "context" context)
          let norm ← liftEx (normalizeOperations payload1 accounts categories)
          let payload2 ← liftEx (pyDictWith payload1 "normalized_transactions"
            (.list norm.normalized))
          let payload3 ←
            if !(missingAccountsOut norm).isEmpty then
              liftEx (pyDictWith payload2 "missing_accounts"
                (.list (missingAccountsOut norm)))
            else pure payload2
          let payload4 ←
            if !(missingCategoriesOut norm).isEmpty then
              liftEx (pyDictWith payload3 "missing_categories"
                (.list (missingCategoriesOut norm)))
            else pure payload3
          let payload5 ←
            if pyTruthy sourceValue then
              liftEx (pyDictWith payload4 "source" sourceValue)
            else pure payload4
          let payload6 ←
            if !norm.warnings.isEmpty then
              liftEx (pyDictWith payload5 "warnings"
                (.list (norm.warnings.map (fun w => .str w))))
            else pure payload5
          let draft ← createStatementDraft currentUser budgetId .none
            sourceMime statementTextValue llmModel payload6
          pure (.created draft payload6)

/-! ## Claim-side definitions and concrete fixtures -/

/-- Modelled from the spec's words (claim C5): the file's content type or
filename extension indicates one of the five formats
`csv`, `text/*`, `pdf`, `xls`, `xlsx`. -/
def claimFiveFormatMatch (contentTypeRaw filenameRaw : String) : Bool :=
  let ct := pyLower contentTypeRaw
  let fn := pyLower filenameRaw
  pySubstr "csv" ct || pyEndsWith fn ".csv" || pyStartsWith ct "text/" ||
    pySubstr "pdf" ct || pyEndsWith fn ".pdf" ||
    pySubstr "xls" ct || pyEndsWith fn ".xls" || pyEndsWith fn ".xlsx"

/-- Number of alphanumeric characters of a string (used to state the
alphanumeric-density reading of claim C9). -/
def countAlnum (s : String) : Nat := s.data.countP (fun c => c.isAlphanum)

/-- Modelled from the claim's words (C4): one operation is free of the
claim's per-operation violations — no missing `date`/`amount`/`type`/
`account` and no non-empty type outside the four raw names. -/
def opClaimViolationFree (op : PyVal) : Bool :=
  match op with
  | .dict xs =>
      (opFieldKeys.all (fun k => !isNoneOrEmptyStr (dictGet xs k))) &&
      (match pyLowerOrEmpty (dictGet xs "type") with
       | .ok t => t == "" || allowedRawTypes.contains t
       | .error _ => true)
  | _ => true

/-- Modelled from the claim's words (C4): none of the violations the claim
enumerates occur — no required key missing, no empty `operations` list, and
no per-operation violation. -/
def claimC4ViolationFree (p : PyVal) : Bool :=
  (requiredKeysSorted.all (fun k => (pyKeys p).contains k)) &&
  (match p with
   | .dict xs =>
       match dictGet xs "operations" with
       | .list ops => !ops.isEmpty && ops.all opClaimViolationFree
       | _ => true
   | _ => true)

/-- Per-operation clause of the code-derived characterization of
`_validate_draft_payload` returning no errors: a dict whose four required
fields are non-null/non-empty and whose type lowers to a string that is
empty or one of the four raw names (a truthy non-string type crashes
validation instead). -/
def opGoodB (op : PyVal) : Bool :=
  match op with
  | .dict xs =>
      (opFieldKeys.all (fun k => !isNoneOrEmptyStr (dictGet xs k))) &&
      (match pyLowerOrEmpty (dictGet xs "type") with
       | .ok t => t == "" || allowedRawTypes.contains t
       | .error _ => false)
  | _ => false

/-- Code-derived characterization of `_validate_draft_payload` returning an
empty error list: all six keys present, `operations` a non-empty list of
good operations, `summary` a dict, and the four other keys lists. -/
def goodDraftPayload : PyVal → Bool
  | .dict xs =>
      (requiredKeysSorted.all (fun k => (xs.map Prod.fst).contains k)) &&
      (match dictGet xs "operations" with
       | .list ops => !ops.isEmpty && ops.all opGoodB
       | _ => false) &&
      isDict (dictGet xs "summary") &&
      isList (dictGet xs "accounts_to_create") &&
      isList (dictGet xs "categories_to_create") &&
      isList (dictGet xs "counterparties") &&
      isList (dictGet xs "warnings")
  | _ => false

/-- The missing-keys message `_validate_draft_payload` produces for a dict
payload. -/
def missingKeysMessage (xs : List (String × PyVal)) : String :=
  "Missing keys: " ++ joinSep ", "
    (requiredKeysSorted.filter (fun k => !(xs.map Prod.fst).contains k))

/-- The `type` field of a normalized operation dict. -/
def normOpType (op : PyVal) : PyVal :=
  match op with
  | .dict xs => dictGet xs "type"
  | _ => .none

/-- The four canonical internal operation types. -/
def canonicalTypes : List String := ["income", "expense", "transfer", "fee"]

/-- The store left behind by a run. -/
def resultStore {α : Type} : PyResult α → Store
  | .ok _ s => s
  | .err _ s => s

/-- The status code and reason of a structured apply-failure response. -/
def applyRespCodeReason : PyResult ApplyOutcome → Option (Nat × PyVal)
  | .ok (.failedResp c r _) _ => some (c, r)
  | _ => Option.none

/-- Whether a run ended in an uncaught `TypeError`. -/
def isTypeErrorResult {α : Type} : PyResult α → Bool
  | .err (.typeError _) _ => true
  | _ => false

/-- A normalized operation dict as `_normalize_operations` emits it, used by
the concrete apply fixtures. -/
def fixtureOp (date : String) (amount : Int) (ty : String)
    (accName : String) (catName : PyVal) : PyVal :=
  .dict [("date", .str date), ("type", .str ty), ("kind", .str "normal"),
    ("amount", .int amount), ("account_id", .none), ("to_account_id", .none),
    ("category_id", .none), ("tag", .str "one_time"), ("note", .none),
    ("debt", .none), ("balance_after", .none), ("counterparty", .none),
    ("account_name", .str accName), ("to_account_name", .none),
    ("category_name", catName)]

/-- A draft row fixture of user `u` in budget 1. -/
def fixtureDraft (status : String) (payload : PyVal) : DraftRow where
  id := 1
  userId := "u"
  budgetId := 1
  status := status
  sourceFilename := .none
  sourceMime := .none
  sourceText := ""
  model := "m"
  payload := payload
  feedback := .none

/-- The account `Tinkoff` of budget 1. -/
def fixtureAccount : AccountRow where
  id := 10
  budgetId := 1
  name := "Tinkoff"
  kind := "bank"
  activeFrom := 20240101

/-- The expense category `Groceries` of budget 1. -/
def fixtureCategory : CategoryRow where
  id := 20
  budgetId := 1
  name := "Groceries"
  parentId := Option.none
  ctype := some "expense"

/-- A store of user `u` with budget 1, one account, the given categories and
the given draft. -/
def fixtureStore (cats : List CategoryRow) (draft : DraftRow) : Store where
  budgets := [(1, "u")]
  accounts := [fixtureAccount]
  categories := cats
  transactions := []
  events := []
  daily := []
  drafts := [draft]
  rules := []
  nextId := 100
  catTypeDefault := some "expense"
  locals := {}

/-- C1 fixture: a draft with one fully resolvable expense operation against
an empty transaction table. -/
def c1Store : Store :=
  fixtureStore [fixtureCategory] (fixtureDraft "draft"
    (.dict [("normalized_transactions",
      .list [fixtureOp "2024-03-01" 500 "expense" "Tinkoff" (.str "Groceries")])]))

/-- The C1 apply run. -/
def c1Run : PyResult ApplyOutcome := applyStatementDraft "u" 1 true 20240315 c1Store

/-- C7 fixture: two expense operations without category names, and no
`Прочее` category in the store. -/
def c7Store : Store :=
  fixtureStore [] (fixtureDraft "draft"
    (.dict [("normalized_transactions",
      .list [fixtureOp "2024-03-02" 100 "expense" "Tinkoff" .none,
             fixtureOp "2024-03-03" 200 "expense" "Tinkoff" .none])]))

/-- The C7 apply run. -/
def c7Run : PyResult ApplyOutcome := applyStatementDraft "u" 1 true 20240315 c7Store

/-- C2 fixture: the C1 draft already in the `applied` terminal status. -/
def c2AppliedStore : Store :=
  fixtureStore [fixtureCategory] (fixtureDraft "applied"
    (.dict [("normalized_transactions",
      .list [fixtureOp "2024-03-01" 500 "expense" "Tinkoff" (.str "Groceries")])]))

/-- C2 fixture: a draft in the `failed` terminal status carrying a stored
`apply_error`. -/
def c2FailedStore : Store :=
  fixtureStore [fixtureCategory] (fixtureDraft "failed"
    (.dict [("normalized_transactions", .list []),
      ("apply_error", .dict [("reason", .str "empty_operations"),
        ("details", .dict [("message", .str "Draft has no operations")])])]))

/-- C3 fixture: a store with no drafts. -/
def c3Store : Store := fixtureStore [fixtureCategory] (fixtureDraft "draft" (.dict []))

/-- The C3 run where the LLM call raises `LLMError`. -/
def c3RunLLMError : PyResult PostOutcome :=
  postStatementDraftText "u" 1 "statement text" Option.none Option.none
    20240315 "model-x" (.llmErr "boom" "raw text") c3Store

/-- The C3 run where the LLM returns JSON that fails contract validation. -/
def c3RunBadContract : PyResult PostOutcome :=
  postStatementDraftText "u" 1 "statement text" Option.none Option.none
    20240315 "model-x" (.ok (.dict [])) c3Store

/-- The C10 counterexample payload: contract-complete, with one operation
whose `type` is the boolean `false`. -/
def c10Payload : PyVal :=
  .dict [("operations", .list [.dict
      [("date", .str "2024-01-01"), ("amount", .int 1),
       ("type", .bool false), ("account", .str "a")]]),
    ("summary", .dict []), ("accounts_to_create", .list []),
    ("categories_to_create", .list []), ("counterparties", .list []),
    ("warnings", .list [])]

/-- The C4 counterexample payload: all six keys present, one fully valid
operation, but `summary` is a list rather than an object. -/
def c4Payload : PyVal :=
  .dict [("operations", .list [.dict
      [("date", .str "2024-03-01"), ("amount", .int 500),
       ("type", .str "expense"), ("account", .str "Tinkoff")]]),
    ("summary", .list []), ("accounts_to_create", .list []),
    ("categories_to_create", .list []), ("counterparties", .list []),
    ("warnings", .list [])]

/-- The fields of a contract-conforming payload used by witnesses. -/
def c4GoodFields : List (String × PyVal) :=
  [("operations", .list [.dict
      [("date", .str "2024-03-01"), ("amount", .int 500),
       ("type", .str "expense"), ("account", .str "Tinkoff"),
       ("category", .str "Groceries")]]),
    ("summary", .dict []), ("accounts_to_create", .list []),
    ("categories_to_create", .list []), ("counterparties", .list []),
    ("warnings", .list [])]

/-- A contract-conforming payload used by witnesses. -/
def c4GoodPayload : PyVal := .dict c4GoodFields

/-- The operation `_normalize_operations` produces from `c4GoodPayload`
against empty account/category snapshots. -/
def c4GoodNormOp : PyVal :=
  .dict [("date", .str "2024-03-01"), ("type", .str "expense"),
    ("kind", .str "normal"), ("amount", .int 500), ("account_id", .none),
    ("to_account_id", .none), ("category_id", .none), ("tag", .str "one_time"),
    ("note", .none), ("debt", .none), ("balance_after", .none),
    ("counterparty", .none), ("account_name", .str "Tinkoff"),
    ("to_account_name", .none), ("category_name", .str "Groceries")]

/-- The full resolver result on `c4GoodPayload` against empty snapshots. -/
def c4GoodNormRes : NormOpsResult :=
  ⟨[c4GoodNormOp], [],
   [("tinkoff", .dict [("name", .str "Tinkoff"), ("kind", .str "bank")])],
   [("groceries", .dict [("name", .str "Groceries"), ("type", .str "expense")])]⟩

end Finance

namespace Finance

/-! ## Verification: helper lemmas -/

/-- Splitting a successful `Except` bind. -/
lemma exceptBindOk {α β : Type} {x : Except PyExn α} {f : α → Except PyExn β}
    {r : β} (h : (x >>= f) = .ok r) : ∃ a, x = .ok a ∧ f a = .ok r := by
  cases x with
  | ok a => exact ⟨a, rfl, by simpa [Bind.bind, Except.bind] using h⟩
  | error e => simp [Bind.bind, Except.bind] at h

/-- An absent assoc key is not among the mapped keys. -/
lemma assocGet_none_not_mem {α : Type} {xs : List (String × α)} {k : String}
    (h : assocGet xs k = Option.none) : k ∉ xs.map Prod.fst := by
  intro hk
  rcases List.mem_map.mp hk with ⟨p, hp, hfst⟩
  rcases hf : xs.find? (fun q => q.fst == k) with _ | q
  · rw [List.find?_eq_none] at hf
    have := hf p hp
    rw [hfst] at this
    simp at this
  · rw [assocGet, hf] at h
    simp at h

/-- Appending an absent key preserves key nodup. -/
lemma appendKey_nodup {α : Type} {xs : List (String × α)} {k : String}
    {v : α} (hnd : (xs.map Prod.fst).Nodup)
    (habs : assocGet xs k = Option.none) :
    ((xs ++ [(k, v)]).map Prod.fst).Nodup := by
  rw [List.map_append]
  simp only [List.map_cons, List.map_nil]
  rw [List.nodup_append]
  exact ⟨hnd, List.nodup_singleton k,
    by
      intro a ha hb
      simp at hb
      subst hb
      exact assocGet_none_not_mem habs ha⟩

/-- `d.get` on a dict value agrees with the total `dictGet`. -/
lemma pyGet_dict (xs : List (String × PyVal)) (k : String) :
    pyGet (.dict xs) k = .ok (dictGet xs k) := by
  rcases hf : xs.find? (fun p => p.fst == k) with _ | p <;>
    simp [pyGet, dictGet, hf]

/-- A validation-loop operation contributes no errors iff it is good. -/
lemma opErr_iff (idx : Nat) (item : PyVal) (es : List String)
    (h : opValidationErrors idx item = .ok es) :
    es = [] ↔ opGoodB item = true := by
  cases item with
  | dict xs =>
      simp only [opValidationErrors, Bind.bind, Except.bind] at h
      cases hlow : pyLowerOrEmpty (dictGet xs "type") with
      | error e => rw [hlow] at h; simp at h
      | ok t =>
          rw [hlow] at h
          simp only [pure, Except.pure, Except.ok.injEq] at h
          subst h
          simp only [opGoodB, hlow, List.append_eq_nil, List.map_eq_nil_iff,
            List.filter_eq_nil_iff, Bool.and_eq_true, List.all_eq_true]
          constructor
          · rintro ⟨hf, ht⟩
            refine ⟨fun k hk => ?_, ?_⟩
            · have := hf k hk
              simp at this
              simp [this]
            · by_cases h1 : t = ""
              · simp [h1]
              · by_cases h2 : allowedRawTypes.contains t
                · rw [Bool.or_eq_true]; exact Or.inr h2
                · exfalso
                  rw [if_pos ⟨h1, by simpa using h2⟩] at ht
                  simp at ht
          · rintro ⟨hf, ht⟩
            constructor
            · intro k hk
              have := hf k hk
              simp at this ⊢
              simp [this]
            · simp only [Bool.or_eq_true, beq_iff_eq] at ht
              rcases ht with h1 | h1
              · rw [if_neg]; rintro ⟨hne, _⟩; exact hne (by simpa using h1)
              · rw [if_neg]; rintro ⟨_, hnc⟩; exact hnc (by simpa using h1)
  | none =>
      simp only [opValidationErrors, Except.ok.injEq] at h
      subst h; simp [opGoodB]
  | bool b =>
      simp only [opValidationErrors, Except.ok.injEq] at h
      subst h; simp [opGoodB]
  | int n =>
      simp only [opValidationErrors, Except.ok.injEq] at h
      subst h; simp [opGoodB]
  | float q =>
      simp only [opValidationErrors, Except.ok.injEq] at h
      subst h; simp [opGoodB]
  | str s =>
      simp only [opValidationErrors, Except.ok.injEq] at h
      subst h; simp [opGoodB]
  | list l =>
      simp only [opValidationErrors, Except.ok.injEq] at h
      subst h; simp [opGoodB]

/-- The validation loop returns no errors iff every operation is good. -/
lemma opsLoop_iff : ∀ (items : List PyVal) (idx : Nat) (es : List String),
    opsValidationLoop items idx = .ok es →
    (es = [] ↔ items.all opGoodB = true)
  | [], idx, es, h => by
      simp only [opsValidationLoop, Except.ok.injEq] at h
      subst h; simp
  | item :: rest, idx, es, h => by
      simp only [opsValidationLoop, Bind.bind, Except.bind] at h
      cases h1 : opValidationErrors idx item with
      | error e => rw [h1] at h; simp at h
      | ok e =>
          rw [h1] at h
          cases h2 : opsValidationLoop rest (idx + 1) with
          | error e2 => rw [h2] at h; simp at h
          | ok es2 =>
              rw [h2] at h
              simp only [pure, Except.pure, Except.ok.injEq] at h
              subst h
              have ih := opsLoop_iff rest (idx + 1) es2 h2
              have he := opErr_iff idx item e h1
              simp only [List.append_eq_nil, List.all_cons, Bool.and_eq_true]
              constructor
              · rintro ⟨ha, hb⟩; exact ⟨he.mp ha, ih.mp hb⟩
              · rintro ⟨ha, hb⟩; exact ⟨he.mpr ha, ih.mpr hb⟩

/-- Characterization of `_validate_draft_payload` on dict payloads, shared
by the C4 and C10 developments. -/
lemma validateDraftPayload_ok_char (xs : List (String × PyVal)) (es : List String)
    (h : validateDraftPayload (.dict xs) = .ok es) :
    (es = [] ↔ goodDraftPayload (.dict xs) = true) ∧
    (∀ k, requiredKeysSorted.contains k = true →
      (xs.map Prod.fst).contains k = false → missingKeysMessage xs ∈ es) := by
  simp only [validateDraftPayload, Bind.bind, Except.bind] at h
  rcases hops : dictGet xs "operations" with _ | b | n | q | st | ops | ds
  case list =>
    rw [hops] at h
    try dsimp only [] at h
    by_cases hemp : ops.isEmpty
    · rw [if_pos hemp] at h
      dsimp only [pure, Except.pure] at h
      rw [Except.ok.injEq] at h
      subst h
      constructor
      · constructor
        · intro habs; simp at habs
        · intro hg
          exfalso
          simp only [goodDraftPayload, hops, Bool.and_eq_true] at hg
          simp [hemp] at hg
      · intro k hk hmiss
        have hne : (requiredKeysSorted.filter
            (fun k2 => !(xs.map Prod.fst).contains k2)).isEmpty = false := by
          cases hfil : (requiredKeysSorted.filter
              (fun k2 => !(xs.map Prod.fst).contains k2)) with
          | nil =>
              exfalso
              rw [List.filter_eq_nil_iff] at hfil
              exact (hfil k (by simpa using hk)) (by rw [hmiss]; rfl)
          | cons a l => rfl
        rw [if_pos (by rw [hne]; rfl :
          (!(requiredKeysSorted.filter
            (fun k2 => !(xs.map Prod.fst).contains k2)).isEmpty) = true)]
        simp [missingKeysMessage, List.mem_append]
    · rw [if_neg hemp] at h
      cases hloop : opsValidationLoop ops 0 with
      | error e => rw [hloop] at h; simp at h
      | ok les =>
          rw [hloop] at h
          dsimp only [pure, Except.pure] at h
          rw [Except.ok.injEq] at h
          subst h
          have hiff := opsLoop_iff ops 0 les hloop
          have hfilter : (requiredKeysSorted.filter
              (fun k2 => !(xs.map Prod.fst).contains k2)) = [] ↔
              requiredKeysSorted.all
                (fun k2 => (xs.map Prod.fst).contains k2) = true := by
            rw [List.filter_eq_nil_iff, List.all_eq_true]
            constructor
            · intro hh a ha
              have h3 := hh a ha
              cases hc : (xs.map Prod.fst).contains a with
              | false =>
                  exact absurd (show (!(xs.map Prod.fst).contains a) = true by
                    rw [hc]; rfl) h3
              | true => rfl
            · intro hh a ha habs
              rw [hh a ha] at habs
              exact absurd habs (by decide)
          have hmk : ((if (!(requiredKeysSorted.filter
              (fun k2 => !(xs.map Prod.fst).contains k2)).isEmpty) = true then
                ["Missing keys: " ++ joinSep ", " (requiredKeysSorted.filter
                  (fun k2 => !(xs.map Prod.fst).contains k2))]
              else []) = []) ↔
              requiredKeysSorted.all
                (fun k2 => (xs.map Prod.fst).contains k2) = true := by
            cases hfil : (requiredKeysSorted.filter
                (fun k2 => !(xs.map Prod.fst).contains k2)) with
            | nil =>
                rw [if_neg (by decide)]
                constructor
                · intro _; exact hfilter.mp hfil
                · intro _; rfl
            | cons a l =>
                rw [if_pos (by rfl)]
                constructor
                · intro habs; exact absurd habs (by simp)
                · intro hall
                  exfalso
                  rw [← hfilter, hfil] at hall
                  exact List.cons_ne_nil a l hall
          have hsum : ∀ (msg : String) (b : Bool),
              ((if (!b) = true then [msg] else []) = []) ↔ b = true := by
            intro msg b
            cases b <;> simp
          have hopsB : les = [] ↔
              (!ops.isEmpty && ops.all opGoodB) = true := by
            rw [hiff]
            have : (!ops.isEmpty) = true := by
              cases hE : ops.isEmpty
              · rfl
              · exact absurd hE hemp
            simp [this]
          constructor
          · simp only [List.append_eq_nil, and_assoc]
            constructor
            · rintro ⟨h1, h2, h3, h4, h5, h6, h7⟩
              have hA := hmk.mp h1
              have hB := hopsB.mp h2
              rw [Bool.and_eq_true] at hB
              simp only [goodDraftPayload]
              rw [hops]
              simp only [Bool.and_eq_true, and_assoc]
              exact ⟨hA, hB.1, hB.2, (hsum _ _).mp h3, (hsum _ _).mp h4,
                (hsum _ _).mp h5, (hsum _ _).mp h6, (hsum _ _).mp h7⟩
            · intro hg
              simp only [goodDraftPayload] at hg
              rw [hops] at hg
              simp only [Bool.and_eq_true, and_assoc] at hg
              obtain ⟨hA, hB1, hB2, hC, hD, hE, hF, hG⟩ := hg
              refine ⟨hmk.mpr hA, ?_, (hsum _ _).mpr hC, (hsum _ _).mpr hD,
                (hsum _ _).mpr hE, (hsum _ _).mpr hF, (hsum _ _).mpr hG⟩
              apply hopsB.mpr
              rw [Bool.and_eq_true]
              exact ⟨hB1, hB2⟩
          · intro k hk hmiss
            have hne : (requiredKeysSorted.filter
                (fun k2 => !(xs.map Prod.fst).contains k2)).isEmpty = false := by
              cases hfil : (requiredKeysSorted.filter
                  (fun k2 => !(xs.map Prod.fst).contains k2)) with
              | nil =>
                  exfalso
                  rw [List.filter_eq_nil_iff] at hfil
                  exact (hfil k (by simpa using hk)) (by rw [hmiss]; rfl)
              | cons a l => rfl
            rw [if_pos (by rw [hne]; rfl :
              (!(requiredKeysSorted.filter
                (fun k2 => !(xs.map Prod.fst).contains k2)).isEmpty) = true)]
            simp [missingKeysMessage, List.mem_append]
  all_goals (
    rw [hops] at h
    dsimp only [pure, Except.pure] at h
    rw [Except.ok.injEq] at h
    subst h
    constructor
    · constructor
      · intro habs; simp at habs
      · intro hg
        exfalso
        simp [goodDraftPayload, hops] at hg
    · intro k hk hmiss
      have hne : (requiredKeysSorted.filter
          (fun k2 => !(xs.map Prod.fst).contains k2)).isEmpty = false := by
        cases hfil : (requiredKeysSorted.filter
            (fun k2 => !(xs.map Prod.fst).contains k2)) with
        | nil =>
            exfalso
            rw [List.filter_eq_nil_iff] at hfil
            exact (hfil k (by simpa using hk)) (by rw [hmiss]; rfl)
        | cons a l => rfl
      rw [if_pos (by rw [hne]; rfl :
        (!(requiredKeysSorted.filter
          (fun k2 => !(xs.map Prod.fst).contains k2)).isEmpty) = true)]
      simp [missingKeysMessage, List.mem_append])

/-- A payload validating without errors is a dict with a non-empty list of
good operations. -/
lemma validateOk_shape {p : PyVal} (hv : validateDraftPayload p = .ok []) :
    ∃ xs ops, p = .dict xs ∧ dictGet xs "operations" = .list ops ∧
      ops.isEmpty = false ∧ ops.all opGoodB = true := by
  cases p
  case dict xs =>
    have hgood : goodDraftPayload (.dict xs) = true :=
      (validateDraftPayload_ok_char xs [] hv).1.mp rfl
    rw [goodDraftPayload] at hgood
    repeat rw [Bool.and_eq_true] at hgood
    have hB := hgood.1.1.1.1.1.2
    rcases hops : dictGet xs "operations" with _ | b | n | q | st | ops | ds <;>
      rw [hops] at hB
    case list =>
      try dsimp only [] at hB
      rw [Bool.and_eq_true] at hB
      refine ⟨xs, ops, rfl, hops, ?_, hB.2⟩
      have := hB.1
      cases he : ops.isEmpty
      · rfl
      · rw [he] at this; simp at this
    all_goals simp at hB
  all_goals simp [validateDraftPayload] at hv

/-- The missing-accounts update either keeps the dict or appends an absent
key. -/
lemma missingAccountsStep_ok {item : PyVal} {an ak : String}
    {aid : Option Nat} {missing res : List (String × PyVal)}
    (h : missingAccountsStep item an ak aid missing = .ok res) :
    res = missing ∨ ((assocGet missing ak).isNone = true ∧
      ∃ rv, res = missing ++
        [(ak, .dict [("name", rv), ("kind", .str "bank")])]) := by
  rw [missingAccountsStep] at h
  split at h
  · rename_i hc
    obtain ⟨rv, hrv, h⟩ := exceptBindOk h
    try dsimp only [] at h
    simp only [pure, Except.pure, Except.ok.injEq] at h
    exact Or.inr ⟨hc.2.2, rv, h.symm⟩
  · simp only [pure, Except.pure, Except.ok.injEq] at h
    exact Or.inl h.symm

/-- The missing-categories update either keeps the dict or appends an
absent key. -/
lemma missingCategoriesStep_ok {item : PyVal} {cn ck : String}
    {cid : Option Nat} {missing res : List (String × PyVal)}
    (h : missingCategoriesStep item cn ck cid missing = .ok res) :
    res = missing ∨ ((assocGet missing ck).isNone = true ∧
      ∃ rv, res = missing ++
        [(ck, .dict [("name", rv), ("type", .str "expense")])]) := by
  rw [missingCategoriesStep] at h
  split at h
  · rename_i hc
    obtain ⟨rv, hrv, h⟩ := exceptBindOk h
    try dsimp only [] at h
    simp only [pure, Except.pure, Except.ok.injEq] at h
    exact Or.inr ⟨hc.2.2, rv, h.symm⟩
  · simp only [pure, Except.pure, Except.ok.injEq] at h
    exact Or.inl h.symm

/-- One successful iteration of the operations loop, decomposed. -/
lemma opsLoop_cons_ok {item : PyVal} {rest : List PyVal}
    {am cm : List (String × Nat)} {acc res : OpsLoopResult}
    (h : operationsLoop (item :: rest) am cm acc = .ok res) :
    ∃ account_name category_name tv opT missingA missingC normItem,
      pyStripField item "account" = .ok account_name ∧
      pyStripField item "category" = .ok category_name ∧
      pyGet item "type" = .ok tv ∧
      pyLowerOrEmpty tv = .ok opT ∧
      normOpType normItem = optStr (mapOperationType (some opT)) ∧
      missingAccountsStep item account_name (pyLower account_name)
        (if account_name ≠ "" then assocGet am (pyLower account_name)
          else Option.none) acc.missingAccounts = .ok missingA ∧
      missingCategoriesStep item category_name (pyLower category_name)
        (if category_name ≠ "" then assocGet cm (pyLower category_name)
          else Option.none) acc.missingCategories = .ok missingC ∧
      operationsLoop rest am cm
        ⟨acc.normalized ++ [normItem], missingA, missingC⟩ = .ok res := by
  rw [operationsLoop] at h
  obtain ⟨an, han, h⟩ := exceptBindOk h
  try dsimp only [] at h
  obtain ⟨cn, hcn, h⟩ := exceptBindOk h
  try dsimp only [] at h
  obtain ⟨mA, hmA, h⟩ := exceptBindOk h
  try dsimp only [] at h
  obtain ⟨mC, hmC, h⟩ := exceptBindOk h
  try dsimp only [] at h
  obtain ⟨tv, htv, h⟩ := exceptBindOk h
  try dsimp only [] at h
  obtain ⟨opT, hopT, h⟩ := exceptBindOk h
  try dsimp only [] at h
  obtain ⟨tp, htp, h⟩ := exceptBindOk h
  try dsimp only [] at h
  obtain ⟨dv, hdv, h⟩ := exceptBindOk h
  try dsimp only [] at h
  obtain ⟨av, hav, h⟩ := exceptBindOk h
  try dsimp only [] at h
  obtain ⟨nv, hnv, h⟩ := exceptBindOk h
  try dsimp only [] at h
  obtain ⟨bv, hbv, h⟩ := exceptBindOk h
  try dsimp only [] at h
  obtain ⟨cv, hcv, h⟩ := exceptBindOk h
  try dsimp only [] at h
  obtain ⟨anv, hanv, h⟩ := exceptBindOk h
  try dsimp only [] at h
  obtain ⟨cnv, hcnv, h⟩ := exceptBindOk h
  try dsimp only [] at h
  refine ⟨an, cn, tv, opT, mA, mC, _, han, hcn, htv, hopT, ?_, hmA, hmC, h⟩
  rfl

/-- A successful `_normalize_operations` run, decomposed into its stages. -/
lemma normalizeOperations_ok_decomp {p : PyVal} {accounts : List AccountRow}
    {categories : List CategoryRow} {r : NormOpsResult}
    (h : normalizeOperations p accounts categories = .ok r) :
    ∃ av aItems mA cv cItems mC ov oItems res,
      pyGet p "accounts_to_create" = .ok av ∧
      pyIterOrEmpty av = .ok aItems ∧
      accountsToCreateLoop aItems (accountNameMap accounts) [] = .ok mA ∧
      pyGet p "categories_to_create" = .ok cv ∧
      pyIterOrEmpty cv = .ok cItems ∧
      categoriesToCreateLoop cItems (categoryNameMap categories) [] = .ok mC ∧
      pyGet p "operations" = .ok ov ∧
      pyIterOrEmpty ov = .ok oItems ∧
      operationsLoop oItems (accountNameMap accounts)
        (categoryNameMap categories) ⟨[], mA, mC⟩ = .ok res ∧
      r = ⟨res.normalized, [], res.missingAccounts, res.missingCategories⟩ := by
  rw [normalizeOperations] at h
  obtain ⟨av, hav, h⟩ := exceptBindOk h
  try dsimp only [] at h
  obtain ⟨aItems, haI, h⟩ := exceptBindOk h
  try dsimp only [] at h
  obtain ⟨mA, hmA, h⟩ := exceptBindOk h
  try dsimp only [] at h
  obtain ⟨cv, hcv, h⟩ := exceptBindOk h
  try dsimp only [] at h
  obtain ⟨cItems, hcI, h⟩ := exceptBindOk h
  try dsimp only [] at h
  obtain ⟨mC, hmC, h⟩ := exceptBindOk h
  try dsimp only [] at h
  obtain ⟨ov, hov, h⟩ := exceptBindOk h
  try dsimp only [] at h
  obtain ⟨oItems, hoI, h⟩ := exceptBindOk h
  try dsimp only [] at h
  obtain ⟨res, hres, h⟩ := exceptBindOk h
  try dsimp only [] at h
  injection h with h
  exact ⟨av, aItems, mA, cv, cItems, mC, ov, oItems, res,
    hav, haI, hmA, hcv, hcI, hmC, hov, hoI, hres, h.symm⟩

/-- Every operation the loop emits from good inputs has a canonical or
`None` type. -/
lemma opsLoop_types (items : List PyVal) :
    ∀ (am cm : List (String × Nat)) (acc res : OpsLoopResult),
    operationsLoop items am cm acc = .ok res →
    (∀ item ∈ items, opGoodB item = true) →
    (∀ op ∈ acc.normalized, normOpType op = PyVal.none ∨
      pyValInStrs (normOpType op) canonicalTypes = true) →
    ∀ op ∈ res.normalized, normOpType op = PyVal.none ∨
      pyValInStrs (normOpType op) canonicalTypes = true := by
  induction items with
  | nil =>
      intro am cm acc res h hgood hacc
      rw [operationsLoop] at h
      injection h with h
      subst h
      exact hacc
  | cons item rest ih =>
      intro am cm acc res h hgood hacc
      obtain ⟨an, cn, tv, opT, mA, mC, normItem, han, hcn, htv, hopT, hnt,
        hmA, hmC, hrec⟩ := opsLoop_cons_ok h
      apply ih am cm _ res hrec
        (fun i hi => hgood i (List.mem_cons_of_mem _ hi))
      intro op hop
      rcases List.mem_append.mp hop with hold | hnew
      · exact hacc op hold
      · have heq : op = normItem := List.mem_singleton.mp hnew
        subst heq
        rw [hnt]
        have hg := hgood item (List.mem_cons_self _ _)
        cases item
        case dict xs =>
          rw [pyGet_dict] at htv
          injection htv with htv'
          subst htv'
          rw [opGoodB, Bool.and_eq_true] at hg
          have h2 := hg.2
          rw [hopT] at h2
          try dsimp only [] at h2
          rw [Bool.or_eq_true] at h2
          rcases h2 with he | hmem
          · have : opT = "" := by simpa using he
            subst this
            left
            rfl
          · have : opT = "income" ∨ opT = "expense" ∨ opT = "transfer" ∨
                opT = "commission" := by
              simpa [allowedRawTypes] using hmem
            rcases this with h | h | h | h <;> subst h <;> right <;> decide
        all_goals simp [opGoodB] at hg

/-- The operations loop preserves key nodup of both missing dicts. -/
lemma opsLoop_nodup (items : List PyVal) :
    ∀ (am cm : List (String × Nat)) (acc res : OpsLoopResult),
    operationsLoop items am cm acc = .ok res →
    (acc.missingAccounts.map Prod.fst).Nodup →
    (acc.missingCategories.map Prod.fst).Nodup →
    (res.missingAccounts.map Prod.fst).Nodup ∧
      (res.missingCategories.map Prod.fst).Nodup := by
  induction items with
  | nil =>
      intro am cm acc res h hA hC
      rw [operationsLoop] at h
      injection h with h
      subst h
      exact ⟨hA, hC⟩
  | cons item rest ih =>
      intro am cm acc res h hA hC
      obtain ⟨an, cn, tv, opT, mA, mC, normItem, han, hcn, htv, hopT, hnt,
        hmA, hmC, hrec⟩ := opsLoop_cons_ok h
      apply ih am cm _ res hrec
      · rcases missingAccountsStep_ok hmA with he | ⟨hnone, rv, he⟩
        · subst he; exact hA
        · subst he
          exact appendKey_nodup hA (Option.isNone_iff_eq_none.mp hnone)
      · rcases missingCategoriesStep_ok hmC with he | ⟨hnone, rv, he⟩
        · subst he; exact hC
        · subst he
          exact appendKey_nodup hC (Option.isNone_iff_eq_none.mp hnone)

/-- The accounts_to_create loop preserves key nodup. -/
lemma a2cLoop_nodup (items : List PyVal) :
    ∀ (am : List (String × Nat)) (missing res : List (String × PyVal)),
    accountsToCreateLoop items am missing = .ok res →
    (missing.map Prod.fst).Nodup → (res.map Prod.fst).Nodup := by
  induction items with
  | nil =>
      intro am missing res h hnd
      rw [accountsToCreateLoop] at h
      injection h with h
      subst h
      exact hnd
  | cons item rest ih =>
      intro am missing res h hnd
      rw [accountsToCreateLoop] at h
      obtain ⟨name, hname, h⟩ := exceptBindOk h
      try dsimp only [] at h
      split at h
      · exact ih am missing res h hnd
      · split at h
        · exact ih am missing res h hnd
        · rename_i hcond
          obtain ⟨kr, hkr, h⟩ := exceptBindOk h
          try dsimp only [] at h
          obtain ⟨kindRaw, hkraw, h⟩ := exceptBindOk h
          try dsimp only [] at h
          exact ih am _ res h (appendKey_nodup hnd
            (Option.not_isSome_iff_eq_none.mp (fun hs => hcond (Or.inr hs))))

/-- The categories_to_create loop preserves key nodup. -/
lemma c2cLoop_nodup (items : List PyVal) :
    ∀ (cm : List (String × Nat)) (missing res : List (String × PyVal)),
    categoriesToCreateLoop items cm missing = .ok res →
    (missing.map Prod.fst).Nodup → (res.map Prod.fst).Nodup := by
  induction items with
  | nil =>
      intro cm missing res h hnd
      rw [categoriesToCreateLoop] at h
      injection h with h
      subst h
      exact hnd
  | cons item rest ih =>
      intro cm missing res h hnd
      rw [categoriesToCreateLoop] at h
      obtain ⟨name, hname, h⟩ := exceptBindOk h
      try dsimp only [] at h
      split at h
      · exact ih cm missing res h hnd
      · split at h
        · exact ih cm missing res h hnd
        · rename_i hcond
          exact ih cm _ res h (appendKey_nodup hnd
            (Option.not_isSome_iff_eq_none.mp (fun hs => hcond (Or.inr hs))))

/-! ## The claims -/

/-- C1: refutation record of apply atomicity on the C1 fixture: the draft's
single operation is fully resolvable, yet applying it returns a 500
`internal_error` (the embedded `create_transaction` calls
`create_balance_event` with a `transaction_id` keyword that function does not
accept, a `TypeError`), and the rollback misses the first transaction row:
the store ends with one more transaction than before and the draft `failed`,
so the claimed zero-side-effect rollback does not hold. -/
theorem claim_C1 :
    applyRespCodeReason c1Run = some (500, .str "internal_error") ∧
    (resultStore c1Run).transactions.length = c1Store.transactions.length + 1 ∧
    ((resultStore c1Run).drafts.map DraftRow.status) = ["failed"] :=
  ⟨by rfl, by rfl, by rfl⟩

/-- C2: apply idempotence on terminal drafts: for any stored draft found for
the user, if its status is `applied` the apply endpoint returns the 409
`already_applied` conflict and the store is returned unchanged; if its status
is `failed` it returns the 409 conflict built from the stored `apply_error`
(reason defaulting to `draft_failed`), again with the store unchanged, so a
repeated apply never reprocesses a terminal draft. -/
theorem claim_C2 (user : String) (draftId today : Nat) (s : Store)
    (draft : DraftRow) (v : PyVal) (n : Nat) (out : ApplyOutcome)
    (hfind : s.drafts.find? (fun d => d.id = draftId ∧ d.userId = user) = some draft)
    (hget : pyGet (pyOr draft.payload (.dict [])) "normalized_transactions" = .ok v)
    (hlen : pyLen (pyOr v (.list [])) = .ok n) :
    (draft.status = "applied" →
      applyStatementDraft user draftId true today s =
        .ok (.failedResp 409 (.str "already_applied")
          (.dict [("draft_id", .int draftId), ("status", .str "applied")])) s) ∧
    (draft.status = "failed" →
      failedGuardResponse (pyOr draft.payload (.dict [])) draftId = .ok out →
      applyStatementDraft user draftId true today s = .ok out s) := by
  constructor
  · intro hst
    dsimp only [applyStatementDraft, Bind.bind, bind, getStatementDraft, getStore,
      pure, liftEx, pyThrow]
    rw [hfind]; try dsimp only []
    rw [hget]; try dsimp only []
    rw [hlen]; try dsimp only []
    rw [hst]; try dsimp only []
    rw [if_pos rfl]
  · intro hst hresp
    dsimp only [applyStatementDraft, Bind.bind, bind, getStatementDraft, getStore,
      pure, liftEx, pyThrow]
    rw [hfind]; try dsimp only []
    rw [hget]; try dsimp only []
    rw [hlen]; try dsimp only []
    rw [hst]; try dsimp only []
    rw [if_neg (by decide), if_pos rfl, hresp]

/-- Witness for C2 at the two terminal fixtures. -/
theorem claim_C2_witness :
    applyStatementDraft "u" 1 true 20240315 c2AppliedStore =
      .ok (.failedResp 409 (.str "already_applied")
        (.dict [("draft_id", .int 1), ("status", .str "applied")]))
        c2AppliedStore ∧
    applyStatementDraft "u" 1 true 20240315 c2FailedStore =
      .ok (.failedResp 409 (.str "empty_operations")
        (.dict [("message", .str "Draft has no operations")]))
        c2FailedStore := by
  constructor
  · exact (claim_C2 "u" 1 20240315 c2AppliedStore
      (fixtureDraft "applied" (.dict [("normalized_transactions",
        .list [fixtureOp "2024-03-01" 500 "expense" "Tinkoff"
          (.str "Groceries")])]))
      (.list [fixtureOp "2024-03-01" 500 "expense" "Tinkoff"
        (.str "Groceries")]) 1
      (.failedResp 409 (.str "already_applied")
        (.dict [("draft_id", .int 1), ("status", .str "applied")]))
      (by rfl) (by rfl) (by rfl)).1 rfl
  · exact (claim_C2 "u" 1 20240315 c2FailedStore
      (fixtureDraft "failed" (.dict [("normalized_transactions", .list []),
        ("apply_error", .dict [("reason", .str "empty_operations"),
          ("details", .dict [("message",
            .str "Draft has no operations")])])]))
      (.list []) 0
      (.failedResp 409 (.str "empty_operations")
        (.dict [("message", .str "Draft has no operations")]))
      (by rfl) (by rfl) (by rfl)).2 rfl (by rfl)

/-- C3: refutation record of failed-draft persistence: on both the LLM-error
run and the failed-contract-validation run, the handler's call to
`create_statement_draft(..., status="failed", ...)` raises an uncaught
`TypeError` (the repository function accepts no `status` keyword), so no
draft row is persisted at all: the drafts table is unchanged instead of
holding a `failed` draft. -/
theorem claim_C3 :
    isTypeErrorResult c3RunLLMError = true ∧
    (resultStore c3RunLLMError).drafts = c3Store.drafts ∧
    isTypeErrorResult c3RunBadContract = true ∧
    (resultStore c3RunBadContract).drafts = c3Store.drafts :=
  ⟨by rfl, by rfl, by rfl, by rfl⟩

/-- C4 (corrected): characterization of `_validate_draft_payload` on a dict
payload: the error list is empty exactly when the payload satisfies the
code-derived `goodDraftPayload` predicate (which beyond the claim's
enumerated violations also requires `summary` to be an object and the four
auxiliary keys to be lists), and every missing required key is reported via
the single `Missing keys:` message. -/
theorem claim_C4 (xs : List (String × PyVal)) (es : List String)
    (h : validateDraftPayload (.dict xs) = .ok es) :
    (es = [] ↔ goodDraftPayload (.dict xs) = true) ∧
    (∀ k, requiredKeysSorted.contains k = true →
      (xs.map Prod.fst).contains k = false → missingKeysMessage xs ∈ es) :=
  validateDraftPayload_ok_char xs es h

/-- Witness for C4 at the conforming payload. -/
theorem claim_C4_witness : goodDraftPayload (.dict c4GoodFields) = true :=
  (claim_C4 c4GoodFields [] (by rfl)).1.mp rfl

/-- Counterexample to C4 as stated: `c4Payload` has none of the claim's
enumerated violations, yet validation reports `summary must be an object`. -/
theorem claim_C4_counterexample :
    claimC4ViolationFree c4Payload = true ∧
    validateDraftPayload c4Payload = .ok ["summary must be an object"] :=
  ⟨by rfl, by rfl⟩

/-- C5 (corrected): the upload gate passes exactly the csv / text/* / pdf
formats: `_ensure_supported_statement` returns no 415 error iff the content
type contains `csv` or `pdf`, starts with `text/`, or the filename ends in
`.csv` or `.pdf` - `xls`/`xlsx` are not accepted, contrary to the claim's
five-format list. -/
theorem claim_C5 (ct fn : String) :
    ensureSupportedStatement ct fn = Option.none ↔
      (pySubstr "csv" (pyLower ct) = true ∨ pyEndsWith (pyLower fn) ".csv" = true ∨
       pyStartsWith (pyLower ct) "text/" = true ∨
       pySubstr "pdf" (pyLower ct) = true ∨ pyEndsWith (pyLower fn) ".pdf" = true) := by
  simp only [ensureSupportedStatement]
  by_cases h1 : pySubstr "csv" (pyLower ct) <;>
  by_cases h2 : pyEndsWith (pyLower fn) ".csv" <;>
  by_cases h3 : pyStartsWith (pyLower ct) "text/" <;>
  by_cases h4 : pySubstr "pdf" (pyLower ct) <;>
  by_cases h5 : pyEndsWith (pyLower fn) ".pdf" <;>
  simp [h1, h2, h3, h4, h5]

/-- Counterexample to C5 as stated: xls and xlsx uploads match the claimed
format list but are rejected with the 415 error. -/
theorem claim_C5_counterexample :
    claimFiveFormatMatch "application/vnd.ms-excel" "statement.xls" = true ∧
    (ensureSupportedStatement "application/vnd.ms-excel"
      "statement.xls").isSome = true ∧
    claimFiveFormatMatch
      "application/vnd.openxmlformats-officedocument.spreadsheetml.sheet"
      "statement.xlsx" = true ∧
    (ensureSupportedStatement
      "application/vnd.openxmlformats-officedocument.spreadsheetml.sheet"
      "statement.xlsx").isSome = true :=
  ⟨by rfl, by rfl, by rfl, by rfl⟩

/-- C6: CSV debit/credit sign normalization: when the unified amount column
parses, its value is used unchanged; when it is absent/unparseable and the
debit column parses to `d`, the normalized amount is `-|d|`; when debit also
fails and credit parses to `c`, the amount is `+|c|`. -/
theorem claim_C6 (row : List (String × String)) :
    ((coerceNumber (findRowValue amountKeys (lowerRow row))).isSome →
      (normalizeCsvRow row).amount =
        coerceNumber (findRowValue amountKeys (lowerRow row))) ∧
    (coerceNumber (findRowValue amountKeys (lowerRow row)) = Option.none →
      ∀ d, coerceNumber (findRowValue debitKeys (lowerRow row)) = some d →
        (normalizeCsvRow row).amount = some (PyFloat.neg (PyFloat.abs d))) ∧
    (coerceNumber (findRowValue amountKeys (lowerRow row)) = Option.none →
      coerceNumber (findRowValue debitKeys (lowerRow row)) = Option.none →
      ∀ c, coerceNumber (findRowValue creditKeys (lowerRow row)) = some c →
        (normalizeCsvRow row).amount = some (PyFloat.abs c)) := by
  refine ⟨?_, ?_, ?_⟩
  · intro h
    cases ha : coerceNumber (findRowValue amountKeys (lowerRow row)) with
    | none => rw [ha] at h; simp at h
    | some a => simp [normalizeCsvRow, ha]
  · intro ha d hd
    simp [normalizeCsvRow, ha, hd]
  · intro ha hd c hc
    simp [normalizeCsvRow, ha, hd, hc]

/-- Witness for C6 on the debit=100 and credit=100 rows. -/
theorem claim_C6_witness :
    (normalizeCsvRow [("debit", "100")]).amount = some ⟨-100, 1⟩ ∧
    (normalizeCsvRow [("credit", "100")]).amount = some ⟨100, 1⟩ := by
  constructor
  · exact (claim_C6 [("debit", "100")]).2.1 (by rfl) ⟨100, 1⟩ (by rfl)
  · exact (claim_C6 [("credit", "100")]).2.2 (by rfl) (by rfl) ⟨100, 1⟩ (by rfl)

/-- C7: refutation record of the default `Прочее` category fallback: on the
C7 fixture (two expense operations without category names, no `Прочее`
category), the apply run creates the category and then fails with the 500
`internal_error` TypeError of the first transaction insert; rollback removes
the created category, so the final store has no `Прочее` category, a leaked
transaction row, and a `failed` draft - the claimed assignment never
happens. -/
theorem claim_C7 :
    applyRespCodeReason c7Run = some (500, .str "internal_error") ∧
    ((resultStore c7Run).categories.filter (fun c => c.name = "Прочее")).length = 0 ∧
    (resultStore c7Run).transactions.length = 1 ∧
    ((resultStore c7Run).drafts.map DraftRow.status) = ["failed"] :=
  ⟨by rfl, by rfl, by rfl, by rfl⟩

/-- C8: Entity Resolver determinism and dedup: `_normalize_operations` is
embedded as a pure function of the payload and the two snapshots (it takes
no store argument, so it performs no store operations and cannot mutate the
snapshots); two calls returning ok give equal results, and the missing
accounts / missing categories assoc lists are deduplicated - their
lowercased-name keys carry no duplicate. -/
theorem claim_C8 (p : PyVal) (accounts : List AccountRow)
    (categories : List CategoryRow) (r1 r2 : NormOpsResult)
    (h1 : normalizeOperations p accounts categories = .ok r1)
    (h2 : normalizeOperations p accounts categories = .ok r2) :
    r1 = r2 ∧ (r1.missingAccountsA.map Prod.fst).Nodup ∧
      (r1.missingCategoriesA.map Prod.fst).Nodup := by
  have hdet : r1 = r2 := by
    have := h1.symm.trans h2
    injection this
  obtain ⟨av, aItems, mA, cv, cItems, mC, ov, oItems, res,
    hav, haI, hmA, hcv, hcI, hmC, hov, hoI, hres, hr⟩ :=
    normalizeOperations_ok_decomp h1
  have hndA : (mA.map Prod.fst).Nodup :=
    a2cLoop_nodup aItems (accountNameMap accounts) [] mA hmA List.nodup_nil
  have hndC : (mC.map Prod.fst).Nodup :=
    c2cLoop_nodup cItems (categoryNameMap categories) [] mC hmC List.nodup_nil
  have hloop := opsLoop_nodup oItems (accountNameMap accounts)
    (categoryNameMap categories) ⟨[], mA, mC⟩ res hres hndA hndC
  refine ⟨hdet, ?_, ?_⟩
  · rw [hr]
    exact hloop.1
  · rw [hr]
    exact hloop.2

/-- Witness for C8 on the conforming payload against empty snapshots. -/
theorem claim_C8_witness :
    c4GoodNormRes = c4GoodNormRes ∧
    (c4GoodNormRes.missingAccountsA.map Prod.fst).Nodup ∧
    (c4GoodNormRes.missingCategoriesA.map Prod.fst).Nodup :=
  claim_C8 c4GoodPayload [] [] c4GoodNormRes c4GoodNormRes (by rfl) (by rfl)

/-- C9 (corrected): PDF extraction failure condition: `_extract_pdf_text`
returns `None` exactly when the whitespace-normalized extracted text is
empty, and `_decode_statement` raises the 422 unextractable-PDF error
exactly in that case - there is no minimum length or alphanumeric-density
threshold in the code. -/
theorem claim_C9 (pages : List PdfPage) :
    (extractPdfText pages = Option.none ↔
      cleanPdfText (joinSep "\n" (pdfPagesText pages)) = "") ∧
    (decodeStatementPdf pages = .error (.httpExn 422 pdfUnextractableDetail) ↔
      extractPdfText pages = Option.none) := by
  constructor
  · simp only [extractPdfText]
    by_cases h : cleanPdfText (joinSep "\n" (pdfPagesText pages)) = "" <;> simp [h]
  · simp only [decodeStatementPdf]
    cases h : extractPdfText pages <;> simp

/-- Counterexample to C9 as stated: a PDF whose cleaned text is `.` (length
1, zero alphanumeric characters) is extracted and decoded successfully, so
no length/density threshold exists. -/
theorem claim_C9_counterexample :
    extractPdfText [⟨".", []⟩] = some "." ∧
    countAlnum "." = 0 ∧
    decodeStatementPdf [⟨".", []⟩] = .ok "." :=
  ⟨by rfl, by rfl, by rfl⟩

/-- C10 (corrected): canonical-type invariant: for every payload that passes
contract validation with no errors, every operation normalized by
`_normalize_operations` has a `type` that is either one of the canonical
strings income/expense/transfer/fee, or `None` (reachable because a falsy
non-string `type` such as `false` passes validation and maps to `None`). -/
theorem claim_C10 (p : PyVal) (accounts : List AccountRow)
    (categories : List CategoryRow) (r : NormOpsResult)
    (hv : validateDraftPayload p = .ok [])
    (hn : normalizeOperations p accounts categories = .ok r) :
    ∀ op ∈ r.normalized, normOpType op = PyVal.none ∨
      pyValInStrs (normOpType op) canonicalTypes = true := by
  obtain ⟨xs, ops, hp, hops, hemp, hall⟩ := validateOk_shape hv
  subst hp
  obtain ⟨av, aItems, mA, cv, cItems, mC, ov, oItems, res,
    hav, haI, hmA, hcv, hcI, hmC, hov, hoI, hres, hr⟩ :=
    normalizeOperations_ok_decomp hn
  rw [pyGet_dict] at hov
  injection hov with hov
  have hov' : ov = .list ops := hov.symm.trans hops
  subst hov'
  have htr : pyTruthy (.list ops) = true := by
    rw [pyTruthy, hemp]
    rfl
  rw [pyIterOrEmpty, pyOr, if_pos htr] at hoI
  injection hoI with hoI
  rw [← hoI] at hres
  have hmain := opsLoop_types ops (accountNameMap accounts)
    (categoryNameMap categories) ⟨[], mA, mC⟩ res hres
    (fun i hi => List.all_eq_true.mp hall i hi)
    (by intro op hop; simp at hop)
  intro op hop
  rw [hr] at hop
  exact hmain op hop

/-- Witness for C10 at the conforming payload. -/
theorem claim_C10_witness :
    normOpType c4GoodNormOp = PyVal.none ∨
      pyValInStrs (normOpType c4GoodNormOp) canonicalTypes = true :=
  claim_C10 c4GoodPayload [] [] c4GoodNormRes (by rfl) (by rfl) c4GoodNormOp
    (List.mem_singleton.mpr rfl)

/-- Counterexample to C10 as stated: a validated operation whose `type` is
the boolean `false` normalizes to a `None` type, which is not one of the
four canonical strings. -/
theorem claim_C10_counterexample :
    validateDraftPayload c10Payload = .ok [] ∧
    Except.map (fun r => r.normalized.map normOpType)
      (normalizeOperations c10Payload [] []) = .ok [PyVal.none] ∧
    pyValInStrs PyVal.none canonicalTypes = false :=
  ⟨by rfl, by rfl, by rfl⟩

end Finance
